import Mathlib

/-!
Verification development for the prashayan-backend e-commerce service.

The definitions below are a shallow embedding of the order placement,
coupon, order tracking, order status-update and payment-webhook code
(`app/services/order.py`, `app/routers/orders.py`, `app/routers/payment.py`
and the SQLModel table definitions in `app/models/`).

Modelling conventions:
* Python floats holding money amounts are modelled as exact rationals (`ℚ`).
* `datetime` values are modelled as abstract ticks (`Nat`); the ambient
  `datetime.utcnow()` of a request is an explicit `now : Nat` parameter.
* Database tables are Lean lists of records; row lookup by primary key or
  by a unique column is `List.find?` (first match), matching the code's
  `session.get` / `select(...).first()` usage.  Auto-increment primary keys
  are modelled with explicit `next…Id` counters in the `DB` state.
* `session.commit()` points are where the model state is threaded; every
  operation returns the committed database so that partially-committed
  states on exceptions are expressible.
* Python truthiness (`if x:`) on optional numbers / strings is modelled
  exactly: `None`, `0`, `0.0` and `""` are falsy.
* Raised `HTTPException`s / uncaught exceptions are `Except.error` values.
-/

deriving instance DecidableEq for Except

namespace Prashayan

/-! ### Python string helpers

`str.upper()`, `str.strip()` and `int(str)` are re-implemented over the
character list so that all definitions compute by kernel reduction. -/

/-- Python `s.upper()` (ASCII case mapping suffices for the coupon codes
and order numbers handled here). -/
def pyUpper (s : String) : String := ⟨s.data.map Char.toUpper⟩

/-- Python `s.strip()`. -/
def pyStrip (s : String) : String :=
  ⟨((s.data.dropWhile Char.isWhitespace).reverse.dropWhile Char.isWhitespace).reverse⟩

/-- Value of a non-empty all-digit character list. -/
def digitsVal (cs : List Char) : Option Nat :=
  if cs ≠ [] && cs.all Char.isDigit then
    some (cs.foldl (fun a c => a * 10 + (c.toNat - '0'.toNat)) 0)
  else none

/-- Python `int(s)`: surrounding whitespace, an optional sign, then digits
(the rarely-used underscore separators are not modelled). -/
def pyIntOfString (s : String) : Option Int :=
  match (pyStrip s).data with
  | '-' :: rest => (digitsVal rest).map (fun n => -(n : Int))
  | '+' :: rest => (digitsVal rest).map (fun n => (n : Int))
  | cs => (digitsVal cs).map (fun n => (n : Int))

/-! ### JSON values

`json.loads` output is modelled by `JValue` (arrays are not needed by any
webhook access path modelled here and are omitted; every access the handler
performs on an array-valued field is a `TypeError`, i.e. lands in the
non-`obj` error cases below anyway).  Object fields use the auxiliary
mutual inductive `JFields` so that decidable equality can be derived. -/

mutual

inductive JValue where
  | null : JValue
  | bool (b : Bool) : JValue
  | num (q : ℚ) : JValue
  | str (s : String) : JValue
  | obj (fs : JFields) : JValue
deriving DecidableEq

inductive JFields where
  | nil : JFields
  | cons (k : String) (v : JValue) (rest : JFields) : JFields
deriving DecidableEq

end

/-- Build an object from a list of key/value pairs (test convenience). -/
def JValue.objL (l : List (String × JValue)) : JValue :=
  .obj (l.foldr (fun kv r => .cons kv.1 kv.2 r) .nil)

/-- First binding of a key in a JSON object (Python dict lookup; keys coming
out of `json.loads` are unique). -/
def JFields.find : JFields → String → Option JValue
  | .nil, _ => none
  | .cons k v rest, key => if k = key then some v else rest.find key

/-- Python truthiness of a JSON value. -/
def JValue.truthy : JValue → Bool
  | .null => false
  | .bool b => b
  | .num q => q ≠ 0
  | .str s => s ≠ ""
  | .obj fs => fs ≠ .nil

/-- Truthiness of an optional JSON value (`x = d.get(k); if x:`). -/
def jOptTruthy : Option JValue → Bool
  | none => false
  | some v => v.truthy

/-- `d[k]`: raises `KeyError` / `TypeError` unless `d` is an object
containing `k`. -/
def JValue.index : JValue → String → Except Unit JValue
  | .obj fs, k =>
    match fs.find k with
    | some v => .ok v
    | none => .error ()
  | _, _ => .error ()

/-- `d.get(k)`: `AttributeError` unless `d` is an object; `None` when the
key is absent. -/
def JValue.getOpt : JValue → String → Except Unit (Option JValue)
  | .obj fs, k => .ok (fs.find k)
  | _, _ => .error ()

/-- Truncation of a rational toward zero, as Python `int(float)`. -/
def ratTrunc (q : ℚ) : Int :=
  if q < 0 then -((-q).floor) else q.floor

/-- Python `int(x)` on a JSON value: parses integer strings, truncates
numbers, converts booleans; raises (`.error`) otherwise. -/
def pyInt : JValue → Except Unit Int
  | .str s =>
    match pyIntOfString s with
    | some n => .ok n
    | none => .error ()
  | .num q => .ok (ratTrunc q)
  | .bool b => .ok (if b then 1 else 0)
  | _ => .error ()

/-- Python truthiness of an optional string (`if not s:` on a header or a
request field). -/
def strTruthy : Option String → Bool
  | none => false
  | some s => s ≠ ""

/-- Python truthiness of an optional rational column value. -/
def qOptTruthy : Option ℚ → Bool
  | none => false
  | some q => q ≠ 0

/-- Python truthiness of an optional integer column value. -/
def natOptTruthy : Option Nat → Bool
  | none => false
  | some n => n ≠ 0

/-! ### Data model (`app/models/…`) -/

/-- `app.models.product.Product` (the columns read by order placement). -/
structure Product where
  id : Nat
  name : String
  mrp : ℚ
  selling_price : ℚ
  stock_quantity : Int
  is_active : Bool
deriving DecidableEq, Repr

/-- `app.models.coupon.CouponType`. -/
inductive CouponType where
  | percentage
  | fixed
deriving DecidableEq, Repr

/-- `app.models.coupon.Coupon`. -/
structure Coupon where
  id : Nat
  code : String
  coupon_type : CouponType
  discount_value : ℚ
  maximum_discount : Option ℚ
  usage_limit : Option Nat
  usage_count : Nat
  per_user_limit : Option Nat
  valid_from : Nat
  valid_until : Option Nat
  minimum_order_amount : Option ℚ
  is_active : Bool
deriving DecidableEq, Repr

/-- `app.models.coupon.CouponUsage` (append-only ledger). -/
structure CouponUsage where
  coupon_id : Nat
  user_id : Nat
  order_id : Nat
  discount_applied : ℚ
  used_at : Nat
deriving DecidableEq, Repr

/-- `app.models.order.PaymentStatus` (the order's payment status). -/
inductive OrderPaymentStatus where
  | paid
  | unpaid
  | pending
  | failed
deriving DecidableEq, Repr

/-- `app.models.order.OrderStatus`. -/
inductive OrderStatus where
  | placed
  | shipped
  | delivered
  | returned
  | cancelled
deriving DecidableEq, Repr

/-- The `ShippingAddress` request model of `app/routers/orders.py`, which is
also the shape of the JSON stored in `Order.shipping_address`. -/
structure ShippingAddress where
  full_name : String
  email : String
  phone : String
  address : String
  city : String
  state : String
  pincode : String
deriving DecidableEq, Repr

/-- The 4-key JSON dict stored in `User.address`. -/
structure AddressJson where
  address : String
  city : String
  state : String
  pincode : String
deriving DecidableEq, Repr

/-- `app.models.order.Order`. -/
structure Order where
  id : Nat
  user_id : Nat
  order_number : String
  total_amount : ℚ
  discount_amount : ℚ
  final_amount : ℚ
  payment_type : String
  payment_status : OrderPaymentStatus
  order_status : OrderStatus
  tracking_id : Option String
  shipping_address : ShippingAddress
  coupon_code : Option String
  created_at : Nat
  updated_at : Nat
deriving DecidableEq, Repr

/-- `app.models.order.OrderItem` (the surrogate primary key is never read
by the code modelled here and is omitted). -/
structure OrderItem where
  order_id : Nat
  product_id : Int
  quantity : Int
  price_at_purchase : ℚ
deriving DecidableEq, Repr

/-- `app.models.user.User` (the columns touched by order placement). -/
structure User where
  id : Nat
  name : Option String
  email : String
  phone : Option String
  password_hash : String
  address : Option AddressJson
  is_active : Bool
  is_superuser : Bool
  is_verified : Bool
  is_guest : Bool
deriving DecidableEq, Repr

/-- `app.models.payment.PaymentStatus` (the payment row's status). -/
inductive PayRowStatus where
  | pending
  | success
  | failed
  | refunded
deriving DecidableEq, Repr

/-- `app.models.payment.Payment`.  The gateway-supplied columns hold
whatever JSON value the webhook body carried, hence `Option JValue`. -/
structure Payment where
  id : Nat
  order_id : Nat
  payment_id : Option JValue
  razorpay_order_id : Option JValue
  razorpay_signature : Option JValue
  amount : ℚ
  payment_method : String
  payment_status : PayRowStatus
  created_at : Nat
  updated_at : Nat
deriving DecidableEq

/-- The relational store, one list per table, plus auto-increment counters
for the primary keys the code reads back via `session.refresh`. -/
structure DB where
  products : List Product
  users : List User
  orders : List Order
  orderItems : List OrderItem
  coupons : List Coupon
  couponUsages : List CouponUsage
  payments : List Payment
  nextOrderId : Nat
  nextUserId : Nat
  nextPaymentId : Nat
deriving DecidableEq

/-- `session.get(Product, pid)` with a client-supplied (possibly negative)
integer id. -/
def getProduct (db : DB) (pid : Int) : Option Product :=
  db.products.find? (fun p => (p.id : Int) == pid)

/-- `session.get(Order, oid)` with an `int(...)`-converted id. -/
def getOrderI (db : DB) (oid : Int) : Option Order :=
  db.orders.find? (fun o => (o.id : Int) == oid)

/-- `session.get(User, uid)`. -/
def getUser (db : DB) (uid : Nat) : Option User :=
  db.users.find? (fun u => u.id == uid)

/-- `select(Coupon).where(Coupon.code == code.upper()).first()`. -/
def findCoupon (db : DB) (code : String) : Option Coupon :=
  db.coupons.find? (fun c => c.code == pyUpper code)

/-- Number of `CouponUsage` rows for a `(coupon_id, user_id)` pair
(`len(session.exec(select(CouponUsage).where(...)).all())`). -/
def usageCount (db : DB) (couponId userId : Nat) : Nat :=
  (db.couponUsages.filter (fun u => u.coupon_id == couponId && u.user_id == userId)).length

/-! ### Coupon validator (`OrderService.validate_and_apply_coupon`) -/

/-- Rejection reasons raised as `HTTPException(400, …)` by the validator. -/
inductive CouponErr where
  | invalidCode
  | notActive
  | notYetValid
  | expired
  | belowMinimum
  | usageLimitExceeded
  | perUserLimitExceeded
deriving DecidableEq, Repr

/-- The discount computation of `validate_and_apply_coupon` (source lines
61–67).  `if coupon.maximum_discount:` is Python truthiness, so a cap of
`None` *or* `0.0` leaves the percentage discount uncapped. -/
def couponDiscount (coupon : Coupon) (subtotal : ℚ) : ℚ :=
  match coupon.coupon_type with
  | .percentage =>
    let raw := subtotal * (coupon.discount_value / 100)
    match coupon.maximum_discount with
    | some m => if m ≠ 0 then min raw m else raw
    | none => raw
  | .fixed => min coupon.discount_value subtotal

/-- `if coupon.valid_until and coupon.valid_until < now:` (a `datetime` is
always truthy, so only `None` skips the check). -/
def couponExpired (c : Coupon) (now : Nat) : Bool :=
  match c.valid_until with
  | some t => decide (t < now)
  | none => false

/-- `if coupon.minimum_order_amount and subtotal < coupon.minimum_order_amount:`
(Python truthiness: `None` and `0.0` both skip the check). -/
def couponBelowMinimum (c : Coupon) (subtotal : ℚ) : Bool :=
  match c.minimum_order_amount with
  | some m => m ≠ 0 && decide (subtotal < m)
  | none => false

/-- `if coupon.usage_limit and coupon.usage_count >= coupon.usage_limit:`
(`None` and `0` both mean unlimited). -/
def couponGlobalLimitHit (c : Coupon) : Bool :=
  match c.usage_limit with
  | some l => l ≠ 0 && decide (l ≤ c.usage_count)
  | none => false

/-- `if coupon.per_user_limit and len(user_usage_count) >= coupon.per_user_limit:`
(`None` and `0` both mean unlimited). -/
def couponPerUserLimitHit (db : DB) (c : Coupon) (userId : Nat) : Bool :=
  match c.per_user_limit with
  | some l => l ≠ 0 && decide (l ≤ usageCount db c.id userId)
  | none => false

/-- `OrderService.validate_and_apply_coupon(coupon_code, user_id, subtotal)`.
Returns `(final_amount, discount_amount, coupon)`; each `HTTPException` of
the source is an `.error`, checked in source order (first failure wins). -/
def validateAndApplyCoupon (now : Nat) (db : DB) (couponCode : Option String)
    (userId : Nat) (subtotal : ℚ) : Except CouponErr (ℚ × ℚ × Option Coupon) :=
  if strTruthy couponCode = false then .ok (subtotal, 0, none)
  else
    match findCoupon db (couponCode.getD "") with
    | none => .error .invalidCode
    | some coupon =>
      if coupon.is_active = false then .error .notActive
      else if now < coupon.valid_from then .error .notYetValid
      else if couponExpired coupon now then .error .expired
      else if couponBelowMinimum coupon subtotal then .error .belowMinimum
      else if couponGlobalLimitHit coupon then .error .usageLimitExceeded
      else if couponPerUserLimitHit db coupon userId then .error .perUserLimitExceeded
      else
        let discountAmount := couponDiscount coupon subtotal
        .ok (subtotal - discountAmount, discountAmount, some coupon)

/-! ### Order assembler (`OrderService.create_order` and the
`POST /orders/` router) -/

/-- Failures of order creation (each is an `HTTPException` in the source). -/
inductive OrderErr where
  | productNotFound (pid : Int)
  | productInactive (pid : Int)
  | insufficientStock (pid : Int)
  | coupon (e : CouponErr)
  | orderNotFound
deriving DecidableEq, Repr

/-- One entry of the request's `items` list (`OrderCreateItem`): the client
submits only a product id and a quantity — no price field exists in the
request schema. -/
structure LineItem where
  product_id : Int
  quantity : Int
deriving DecidableEq, Repr

/-- The authoritative unit price:
`getattr(product, 'selling_price', None) or product.mrp` — the `or` falls
back to `mrp` whenever `selling_price` is falsy (`0.0`). -/
def itemPrice (p : Product) : ℚ :=
  if p.selling_price ≠ 0 then p.selling_price else p.mrp

/-- The validation/pricing loop of `create_order` (source lines 78–99):
first failure wins; on success returns the running `calculated_total`
together with the pending `(product_id, quantity, price_at_purchase)`
triples of the `OrderItem`s to be inserted. -/
def validateItems (db : DB) : List LineItem → Except OrderErr (ℚ × List (Int × Int × ℚ))
  | [] => .ok (0, [])
  | it :: rest =>
    match getProduct db it.product_id with
    | none => .error (.productNotFound it.product_id)
    | some p =>
      if p.is_active = false then .error (.productInactive it.product_id)
      else if p.stock_quantity < it.quantity then .error (.insufficientStock it.product_id)
      else
        match validateItems db rest with
        | .error e => .error e
        | .ok (t, xs) =>
          .ok (itemPrice p * (it.quantity : ℚ) + t, (it.product_id, it.quantity, itemPrice p) :: xs)

/-- `product.stock_quantity -= quantity` for one line item
(`session.get` returns the row by primary key). -/
def decrementStock (products : List Product) (pid : Int) (qty : Int) : List Product :=
  products.map (fun p =>
    if (p.id : Int) == pid then { p with stock_quantity := p.stock_quantity - qty } else p)

/-- The stock-update loop of `create_order` (source lines 136–139), applied
item by item (a duplicated product id is decremented once per occurrence). -/
def applyStockDecrements (products : List Product) : List (Int × Int × ℚ) → List Product
  | [] => products
  | x :: rest => applyStockDecrements (decrementStock products x.1 x.2.1) rest

/-- The `User.address` JSON built from a shipping address. -/
def addrJson (a : ShippingAddress) : AddressJson :=
  ⟨a.address, a.city, a.state, a.pincode⟩

/-- `OrderService.create_order`.  The returned database is the committed
state (the source commits after inserting the order header, again after
items/stock/user updates, and again after coupon-usage tracking; every
`HTTPException` is raised before the first commit, which the explicit
threading makes checkable rather than assumed).  The confirmation email is
fire-and-forget and outside the database model. -/
def createOrderService (now : Nat) (db : DB) (userId : Nat) (itemsData : List LineItem)
    (shippingAddress : ShippingAddress) (paymentMethod : String)
    (couponCode : Option String) : DB × Except OrderErr Order :=
  match validateItems db itemsData with
  | .error e => (db, .error e)
  | .ok (calculatedTotal, pending) =>
    match validateAndApplyCoupon now db couponCode userId calculatedTotal with
    | .error e => (db, .error (.coupon e))
    | .ok (finalAmount, discountAmount, coupon?) =>
      let order : Order :=
        { id := db.nextOrderId
          user_id := userId
          order_number := ""
          total_amount := calculatedTotal
          discount_amount := discountAmount
          final_amount := finalAmount
          payment_type := paymentMethod
          payment_status := if paymentMethod = "online" then .paid else .unpaid
          order_status := .placed
          tracking_id := none
          shipping_address := shippingAddress
          coupon_code := if strTruthy couponCode then some (pyUpper (couponCode.getD "")) else none
          created_at := now
          updated_at := now }
      let db1 := { db with orders := db.orders ++ [order], nextOrderId := db.nextOrderId + 1 }
      let newItems := pending.map (fun x =>
        ({ order_id := order.id, product_id := x.1, quantity := x.2.1,
           price_at_purchase := x.2.2 } : OrderItem))
      let db2 := { db1 with
        orderItems := db1.orderItems ++ newItems
        products := applyStockDecrements db1.products pending
        users := db1.users.map (fun u =>
          if u.id == userId then
            { u with address := some (addrJson shippingAddress),
                     phone := some shippingAddress.phone }
          else u) }
      let db3 :=
        match coupon? with
        | some c =>
          if 0 < discountAmount then
            { db2 with
              couponUsages := db2.couponUsages ++
                [{ coupon_id := c.id, user_id := userId, order_id := order.id,
                   discount_applied := discountAmount, used_at := now }]
              coupons := db2.coupons.map (fun cc =>
                if cc.id == c.id then { cc with usage_count := cc.usage_count + 1 } else cc) }
          else db2
        | none => db2
      (db3, .ok order)

/-- The overwrite `create_order` performs on an existing user matched by
shipping email (source lines 52–59): address, phone and name. -/
def overwriteUser (shippingAddress : ShippingAddress) (u : User) : User :=
  { u with address := some (addrJson shippingAddress),
           phone := some shippingAddress.phone,
           name := some shippingAddress.full_name }

/-- The `POST /orders/` handler (`app/routers/orders.py`, `create_order`):
resolves the acting user first — and, for unauthenticated requests, commits
the guest-user creation or the existing user's address/phone/name overwrite
*before* calling the order service. -/
def routeCreateOrder (now : Nat) (db : DB) (currentUser : Option Nat)
    (items : List LineItem) (shippingAddress : ShippingAddress)
    (paymentMethod : String) (couponCode : Option String) : DB × Except OrderErr Order :=
  match currentUser with
  | some uid => createOrderService now db uid items shippingAddress paymentMethod couponCode
  | none =>
    match db.users.find? (fun u => u.email == shippingAddress.email) with
    | some existing =>
      let db1 := { db with users := db.users.map (fun u =>
        if u.id == existing.id then overwriteUser shippingAddress u else u) }
      createOrderService now db1 existing.id items shippingAddress paymentMethod couponCode
    | none =>
      let guest : User :=
        { id := db.nextUserId
          name := some shippingAddress.full_name
          email := shippingAddress.email
          phone := some shippingAddress.phone
          password_hash := "guest_account_placeholder"
          address := some (addrJson shippingAddress)
          is_active := true
          is_superuser := false
          is_verified := false
          is_guest := true }
      let db1 := { db with users := db.users ++ [guest], nextUserId := db.nextUserId + 1 }
      createOrderService now db1 guest.id items shippingAddress paymentMethod couponCode

/-! ### Admin status update (`OrderService.update_status`, reached from
`PATCH /orders/{id}/status`) -/

/-- `OrderService.update_status(order_id, new_status, tracking_id)`.

The source performs no transition check and then executes
`order.status = new_status`.  `status` is not a declared field of the
`Order` model (the column is `order_status`), so that assignment creates an
unmapped transient Python attribute: nothing of it reaches the database and
the persisted (and serialized) `order_status` is left unchanged.  Only
`updated_at` and — when truthy — `tracking_id` are really written.  The
status-dependent notification emails are outside the database model. -/
def updateStatusService (now : Nat) (db : DB) (orderId : Int) (newStatus : OrderStatus)
    (trackingId : Option String) : Except OrderErr (DB × Order) :=
  match getOrderI db orderId with
  | none => .error .orderNotFound
  | some order =>
    let order' := { order with
      updated_at := now
      tracking_id := if strTruthy trackingId then trackingId else order.tracking_id }
    let db' := { db with orders := db.orders.map (fun o => if o.id == order.id then order' else o) }
    let _ := newStatus
    .ok (db', order')

/-! ### Guest order tracking (`GET /orders/track/{order_number}`) -/

/-- Failures of the tracking endpoint (404 / 403 responses). -/
inductive TrackErr where
  | notFound
  | notAuthorized
  | emailMismatch
deriving DecidableEq, Repr

/-- `track_order(order_number)` with the optional authenticated user and the
optional `X-User-Email` header.  The returned `Order` stands for the detail
response assembled from it (items, payments and address are all derived
from this row).  Note the guest email check runs only under
`if not current_user and x_user_email:` — an unauthenticated request that
supplies no (or an empty) header skips the check entirely. -/
def trackOrder (db : DB) (orderNumber : String) (currentUser : Option User)
    (xUserEmail : Option String) : Except TrackErr Order :=
  match db.orders.find? (fun o => o.order_number == pyUpper (pyStrip orderNumber)) with
  | none => .error .notFound
  | some order =>
    match currentUser with
    | some u =>
      if order.user_id ≠ u.id ∧ u.is_superuser = false then .error .notAuthorized
      else .ok order
    | none =>
      if strTruthy xUserEmail then
        if order.shipping_address.email ≠ xUserEmail.getD "" then .error .emailMismatch
        else .ok order
      else .ok order

/-! ### Payment reconciliation webhook (`POST /payment/webhook`,
`app/routers/payment.py`) -/

/-- Error responses of the webhook endpoint: the two explicit
`HTTPException(400, …)` rejections, and `internalError` for any uncaught
exception after signature verification (`json.loads` failure, `KeyError` /
`TypeError` on the envelope, `AttributeError` on a non-dict `notes`,
`ValueError` from `int(...)`), which surfaces as an HTTP 500. -/
inductive WebhookErr where
  | missingSignature
  | invalidSignature
  | internalError
deriving DecidableEq, Repr

/-- `event['event']` / `event['payload']['payment']['entity']` /
`payment_entity['id']` (source lines 82–84): `none` when the event type is
not `payment.captured`; on a captured event returns the entity and its
gateway payment id. -/
def extractEntity (ev : JValue) : Except Unit (Option (JValue × JValue)) :=
  match ev.index "event" with
  | .error e => .error e
  | .ok name =>
    if name ≠ .str "payment.captured" then .ok none
    else
      match ev.index "payload" with
      | .error e => .error e
      | .ok payload =>
        match payload.index "payment" with
        | .error e => .error e
        | .ok payment =>
          match payment.index "entity" with
          | .error e => .error e
          | .ok entity =>
            match entity.index "id" with
            | .error e => .error e
            | .ok pid => .ok (some (entity, pid))

/-- `notes = payment_entity.get('notes', {}); notes.get('internal_order_id')`
(source lines 87–88). -/
def extractNote (entity : JValue) : Except Unit (Option JValue) :=
  match entity.getOpt "notes" with
  | .error e => .error e
  | .ok notesOpt => (notesOpt.getD (.obj .nil)).getOpt "internal_order_id"

/-- The fallback resolution (source lines 100–107): look the event's
razorpay order id up among stored `Payment` rows and, when found, load
that row's order. -/
def resolveFallback (db : DB) (entity : JValue) :
    Except Unit (Option (Order × Option Payment)) :=
  match entity.getOpt "order_id" with
  | .error e => .error e
  | .ok rzp =>
    match rzp with
    | some v =>
      if v.truthy then
        match db.payments.find? (fun p => p.razorpay_order_id == some v) with
        | some rec =>
          match db.orders.find? (fun o => o.id == rec.order_id) with
          | some o => .ok (some (o, some rec))
          | none => .ok none
        | none => .ok none
      else .ok none
    | none => .ok none

/-- The order-resolution step (source lines 86–108): when the note is
truthy the order is looked up by the note alone (no fallback on a miss);
only an absent or falsy note reaches the razorpay-order-id fallback. -/
def resolveTarget (db : DB) (entity : JValue) :
    Except Unit (Option (Order × Option Payment)) :=
  match extractNote entity with
  | .error e => .error e
  | .ok note =>
    if jOptTruthy note then
      match pyInt (note.getD .null) with
      | .error e => .error e
      | .ok oid =>
        match getOrderI db oid with
        | some o => .ok (some (o, db.payments.find? (fun p => p.order_id == o.id)))
        | none => .ok none
    else resolveFallback db entity

/-- `order.payment_status = OrderPaymentStatus.PAID` as a by-primary-key
row update. -/
def markPaid (oid : Nat) : Order → Order :=
  fun x => if x.id == oid then { x with payment_status := .paid } else x

/-- The webhook's update of the resolved `Payment` row (source lines
115–121) as a by-primary-key row update. -/
def updatePaymentRow (now : Nat) (pid : JValue) (rzp sigv : Option JValue)
    (recId : Nat) : Payment → Payment :=
  fun p =>
    if p.id == recId then
      { p with payment_id := some pid, razorpay_order_id := rzp,
               razorpay_signature := sigv, payment_status := .success,
               updated_at := now }
    else p

/-- The fresh `Payment` row the webhook inserts when none exists
(source lines 122–132). -/
def freshPaymentRow (now : Nat) (db : DB) (pid : JValue) (rzp sigv : Option JValue)
    (o : Order) : Payment :=
  { id := db.nextPaymentId, order_id := o.id, payment_id := some pid,
    razorpay_order_id := rzp, razorpay_signature := sigv,
    amount := o.final_amount, payment_method := "razorpay",
    payment_status := .success, created_at := now, updated_at := now }

/-- The reconciliation write (source lines 109–134, one commit): set the
order's `payment_status` to `paid` and update the resolved `Payment` row —
or insert a fresh one when none exists — with the gateway payment id,
order id, signature and `success` status. -/
def applyCapture (now : Nat) (db : DB) (pid : JValue) (rzp sigv : Option JValue)
    (o : Order) (rec? : Option Payment) : DB :=
  let db1 : DB := { db with orders := db.orders.map (markPaid o.id) }
  match rec? with
  | some rec =>
    { db1 with payments := db1.payments.map (updatePaymentRow now pid rzp sigv rec.id) }
  | none =>
    { db1 with
      payments := db1.payments ++ [freshPaymentRow now db pid rzp sigv o]
      nextPaymentId := db1.nextPaymentId + 1 }

/-- `payment_webhook(request, x_razorpay_signature)`.

`verify` abstracts `client.utility.verify_webhook_signature` over the raw
body and the header (an HMAC check against the shared secret), and `parse`
abstracts `json.loads`; both are explicit parameters so that the handler's
control flow over their outcomes is the object of proof.  The returned
database is the committed state; the confirmation email is outside the
model. -/
def paymentWebhook (verify : String → String → Bool) (parse : String → Option JValue)
    (now : Nat) (db : DB) (signatureHeader : Option String) (body : String) :
    DB × Except WebhookErr Unit :=
  if strTruthy signatureHeader = false then (db, .error .missingSignature)
  else if verify body (signatureHeader.getD "") = false then (db, .error .invalidSignature)
  else
    match parse body with
    | none => (db, .error .internalError)
    | some ev =>
      match extractEntity ev with
      | .error _ => (db, .error .internalError)
      | .ok none => (db, .ok ())
      | .ok (some (entity, pid)) =>
        match resolveTarget db entity with
        | .error _ => (db, .error .internalError)
        | .ok none => (db, .ok ())
        | .ok (some (o, rec?)) =>
          match entity.getOpt "order_id", entity.getOpt "signature" with
          | .ok rzp, .ok sigv => (applyCapture now db pid rzp sigv o rec?, .ok ())
          | _, _ => (db, .error .internalError)

/-- Spec-side well-formedness of the note access path: `notes` (when
present) is a dict, and a truthy `internal_order_id` note survives
`int(...)`. -/
def noteOk (entity : JValue) : Bool :=
  match entity.getOpt "notes" with
  | .error _ => false
  | .ok notesOpt =>
    match (notesOpt.getD (.obj .nil)).getOpt "internal_order_id" with
    | .error _ => false
    | .ok note =>
      if jOptTruthy note then (pyInt (note.getD .null)).isOk else true

/-- Spec-side well-formedness of a parsed webhook body: every structured
access the handler performs succeeds.  A non-captured event only needs its
`event` key; a captured event needs the full
`payload.payment.entity` path, an `id`, and a usable note. -/
def envelopeOk (ev : JValue) : Bool :=
  match ev.index "event" with
  | .error _ => false
  | .ok name =>
    if name ≠ .str "payment.captured" then true
    else
      match ev.index "payload" with
      | .error _ => false
      | .ok payload =>
        match payload.index "payment" with
        | .error _ => false
        | .ok payment =>
          match payment.index "entity" with
          | .error _ => false
          | .ok entity => (entity.index "id").isOk && noteOk entity

/-- Spec-side acceptance condition of a webhook request: a truthy
signature header that verifies over the raw body, and a body that parses
to a well-formed envelope. -/
def acceptsRequest (verify : String → String → Bool) (parse : String → Option JValue)
    (signatureHeader : Option String) (body : String) : Bool :=
  match signatureHeader with
  | none => false
  | some s =>
    s ≠ "" && verify body s &&
      (match parse body with
       | none => false
       | some ev => envelopeOk ev)

/-! ### Helper lemmas -/

/-- Successful coupon validation either skipped validation (falsy code) or
returned the looked-up coupon with the computed discount. -/
theorem validate_coupon_cases {now : Nat} {db : DB} {code : String} {uid : Nat}
    {subtotal f d : ℚ} {copt : Option Coupon}
    (h : validateAndApplyCoupon now db (some code) uid subtotal = .ok (f, d, copt)) :
    (copt = none ∧ d = 0 ∧ f = subtotal) ∨
    (∃ c, copt = some c ∧ findCoupon db code = some c ∧
      d = couponDiscount c subtotal ∧ f = subtotal - d) := by
  unfold validateAndApplyCoupon at h
  cases hs : strTruthy (some code) with
  | false =>
    rw [hs] at h
    simp at h
    exact Or.inl ⟨h.2.2.symm, h.2.1.symm, h.1.symm⟩
  | true =>
    rw [hs] at h
    simp at h
    split at h
    · simp at h
    rename_i coupon heq
    split at h
    · simp at h
    split at h
    · simp at h
    split at h
    · simp at h
    split at h
    · simp at h
    split at h
    · simp at h
    split at h
    · simp at h
    simp at h
    exact Or.inr ⟨coupon, h.2.2.symm, heq, h.2.1.symm, by rw [← h.1, h.2.1]⟩

/-! ### Claim C7 — coupon discount computation -/

/-- A percentage coupon whose `maximum_discount` column holds `0.0`: the
cap is *present* but, being falsy, is not applied by the code. -/
def c7capCoupon : Coupon :=
  { id := 9, code := "CAP0", coupon_type := .percentage, discount_value := 10,
    maximum_discount := some 0, usage_limit := none, usage_count := 0,
    per_user_limit := none, valid_from := 0, valid_until := none,
    minimum_order_amount := none, is_active := true }

/-- Catalog-free store holding only the zero-capped coupon. -/
def c7db : DB := ⟨[], [], [], [], [c7capCoupon], [], [], 1, 1, 1⟩

/-- **C7, counterexample.**  The claim says a percentage coupon's discount
is "capped at maximum_discount when that cap is present (never exceeding
the cap for any subtotal)".  With `maximum_discount = 0.0` (present), a
10 % coupon on subtotal 100 passes validation with discount 10, which
exceeds the cap 0: `if coupon.maximum_discount:` treats a zero cap as
absent. -/
theorem claim7_counterexample :
    c7capCoupon.maximum_discount = some 0
    ∧ validateAndApplyCoupon 5 c7db (some "CAP0") 3 100 = .ok (90, 10, some c7capCoupon)
    ∧ ¬ ((10 : ℚ) ≤ 0) := by
  refine ⟨rfl, ?_, by norm_num⟩
  have hfc : findCoupon c7db "CAP0" = some c7capCoupon := by decide
  simp [validateAndApplyCoupon, strTruthy, hfc, couponDiscount, couponExpired,
        couponBelowMinimum, couponGlobalLimitHit, couponPerUserLimitHit, c7capCoupon]
  norm_num

/-- **C7 (amended).**  For every coupon that passes validation: a
percentage coupon yields `subtotal * value/100`, capped at
`maximum_discount` when the cap is present *and non-zero* (never exceeding
such a cap), and uncapped when the cap is absent or zero; a fixed coupon
yields `min(value, subtotal)`, so the discount never exceeds the subtotal
and the final amount is never negative (zero when the face value reaches
the subtotal); with no (or an empty) coupon code the discount is zero and
no validation is performed. -/
theorem claim7_amended :
    (∀ (now : Nat) (db : DB) (code : String) (uid : Nat) (subtotal final disc : ℚ)
       (c : Coupon),
      validateAndApplyCoupon now db (some code) uid subtotal = .ok (final, disc, some c) →
        final = subtotal - disc
        ∧ (c.coupon_type = .percentage →
            (∀ m, c.maximum_discount = some m → m ≠ 0 →
              disc = min (subtotal * (c.discount_value / 100)) m ∧ disc ≤ m)
            ∧ ((c.maximum_discount = none ∨ c.maximum_discount = some 0) →
              disc = subtotal * (c.discount_value / 100)))
        ∧ (c.coupon_type = .fixed →
            disc = min c.discount_value subtotal ∧ disc ≤ subtotal ∧ 0 ≤ final
            ∧ (subtotal ≤ c.discount_value → final = 0)))
    ∧ (∀ (now : Nat) (db : DB) (uid : Nat) (subtotal : ℚ),
        validateAndApplyCoupon now db none uid subtotal = .ok (subtotal, 0, none)
        ∧ validateAndApplyCoupon now db (some "") uid subtotal = .ok (subtotal, 0, none)) := by
  constructor
  · intro now db code uid subtotal final disc c h
    rcases validate_coupon_cases h with ⟨hnone, _, _⟩ | ⟨c', hc', _, hd, hf⟩
    · exact absurd hnone (by simp)
    · obtain rfl : c' = c := (Option.some.injEq _ _).mp hc'.symm
      refine ⟨hf, ?_, ?_⟩
      · intro hp
        simp only [couponDiscount, hp] at hd
        constructor
        · intro m hm hm0
          rw [hm] at hd
          simp [hm0] at hd
          exact ⟨hd, hd ▸ min_le_right _ _⟩
        · intro hcap
          rcases hcap with hcap | hcap <;> rw [hcap] at hd <;> simp at hd <;> exact hd
      · intro hp
        simp only [couponDiscount, hp] at hd
        refine ⟨hd, hd ▸ min_le_right _ _, ?_, ?_⟩
        · rw [hf, hd]
          exact sub_nonneg.mpr (min_le_right _ _)
        · intro hv
          rw [hf, hd, min_eq_right hv]
          ring
  · intro now db uid subtotal
    constructor <;> simp [validateAndApplyCoupon, strTruthy]

/-- A fixed-value coupon whose face value (50) exceeds the witness
subtotal (30). -/
def c7fixCoupon : Coupon :=
  { id := 12, code := "FIX50", coupon_type := .fixed, discount_value := 50,
    maximum_discount := none, usage_limit := none, usage_count := 0,
    per_user_limit := none, valid_from := 0, valid_until := none,
    minimum_order_amount := none, is_active := true }

/-- Store holding only the fixed coupon. -/
def c7wdb : DB := ⟨[], [], [], [], [c7fixCoupon], [], [], 1, 1, 1⟩

/-- **C7, witness.**  A fixed coupon of face value 50 on subtotal 30
validates with discount 30 and final amount 0. -/
theorem claim7_witness :
    validateAndApplyCoupon 5 c7wdb (some "FIX50") 3 30 = .ok (0, 30, some c7fixCoupon)
    ∧ (0 : ℚ) = 30 - 30
    ∧ (30 : ℚ) = min c7fixCoupon.discount_value 30
    ∧ (0 : ℚ) ≤ 0 := by
  have hv : validateAndApplyCoupon 5 c7wdb (some "FIX50") 3 30
      = .ok (0, 30, some c7fixCoupon) := by
    have hfc : findCoupon c7wdb "FIX50" = some c7fixCoupon := by decide
    simp [validateAndApplyCoupon, strTruthy, hfc, couponDiscount, couponExpired,
          couponBelowMinimum, couponGlobalLimitHit, couponPerUserLimitHit, c7fixCoupon]
    norm_num
  have h := claim7_amended.1 5 c7wdb "FIX50" 3 30 0 30 c7fixCoupon hv
  have hfx := h.2.2 rfl
  exact ⟨hv, h.1, hfx.1, hfx.2.2.1⟩

/-! ### Claim C8 — per-user coupon limit -/

/-- A coupon whose `per_user_limit` column holds `0`: present but falsy,
so the code treats it as "unlimited". -/
def c8zeroCoupon : Coupon :=
  { id := 11, code := "ZERO", coupon_type := .percentage, discount_value := 10,
    maximum_discount := none, usage_limit := none, usage_count := 0,
    per_user_limit := some 0, valid_from := 0, valid_until := none,
    minimum_order_amount := none, is_active := true }

/-- Store holding only the zero-limited coupon and no usage rows. -/
def c8db : DB := ⟨[], [], [], [], [c8zeroCoupon], [], [], 1, 1, 1⟩

/-- **C8, counterexample.**  The claim quantifies over "every coupon with a
per_user_limit".  For `per_user_limit = 0` it demands the (0+1) = 1st
attempt be rejected with the per-user-limit reason; the code instead
treats the falsy limit as unlimited and accepts the attempt. -/
theorem claim8_counterexample :
    c8zeroCoupon.per_user_limit = some 0
    ∧ usageCount c8db c8zeroCoupon.id 7 = 0
    ∧ validateAndApplyCoupon 10 c8db (some "ZERO") 7 100 = .ok (90, 10, some c8zeroCoupon) := by
  refine ⟨rfl, by decide, ?_⟩
  have hfc : findCoupon c8db "ZERO" = some c8zeroCoupon := by decide
  simp [validateAndApplyCoupon, strTruthy, hfc, couponDiscount, couponExpired,
        couponBelowMinimum, couponGlobalLimitHit, couponPerUserLimitHit, c8zeroCoupon]
  norm_num

/-- **C8 (amended).**  (a) Every successful order that applies a coupon
with positive discount appends exactly one `CouponUsage` row for that
`(coupon, user)` pair; (b) for a coupon with a *non-zero* `per_user_limit`
`L`, once the user's usage count has reached `L` (as after `L` such
orders), the next attempt with that code is rejected with the
per-user-limit reason — provided the coupon still passes the checks that
run earlier (active, validity window, minimum amount, global limit). -/
theorem claim8_amended :
    (∀ (now : Nat) (db : DB) (uid : Nat) (items : List LineItem) (addr : ShippingAddress)
       (method code : String) (db' : DB) (o : Order) (c : Coupon),
      createOrderService now db uid items addr method (some code) = (db', .ok o) →
      findCoupon db code = some c → 0 < o.discount_amount →
      usageCount db' c.id uid = usageCount db c.id uid + 1)
    ∧ (∀ (now : Nat) (db : DB) (code : String) (uid : Nat) (subtotal : ℚ) (c : Coupon) (L : Nat),
      code ≠ "" → findCoupon db code = some c →
      c.per_user_limit = some L → L ≠ 0 → L ≤ usageCount db c.id uid →
      c.is_active = true → c.valid_from ≤ now →
      couponExpired c now = false → couponBelowMinimum c subtotal = false →
      couponGlobalLimitHit c = false →
      validateAndApplyCoupon now db (some code) uid subtotal = .error .perUserLimitExceeded) := by
  constructor
  · intro now db uid items addr method code db' o c h hfc hdisc
    unfold createOrderService at h
    cases hvi : validateItems db items with
    | error e => rw [hvi] at h; simp at h
    | ok tp =>
      obtain ⟨t, pending⟩ := tp
      rw [hvi] at h
      dsimp only at h
      cases hvc : validateAndApplyCoupon now db (some code) uid t with
      | error e => rw [hvc] at h; simp at h
      | ok fdc =>
        obtain ⟨f, d, copt⟩ := fdc
        rw [hvc] at h
        dsimp only at h
        rcases validate_coupon_cases hvc with ⟨hnone, hd0, _⟩ | ⟨c'', hc'', hfc'', hd, hf⟩
        · subst hnone
          subst hd0
          simp at h
          obtain ⟨hdb, ho⟩ := h
          rw [← ho] at hdisc
          simp at hdisc
        · subst hc''
          obtain rfl : c'' = c := by
            rw [hfc] at hfc''
            exact (Option.some.injEq _ _).mp hfc''.symm
          simp at h
          obtain ⟨hdb, ho⟩ := h
          have hod : 0 < d := by rw [← ho] at hdisc; simpa using hdisc
          rw [← hdb, if_pos hod]
          simp [usageCount, List.filter_append]
  · intro now db code uid subtotal c L hcode hfc hpl hL0 hcount hact hvf hexp hmin hglob
    have hput : couponPerUserLimitHit db c uid = true := by
      simp [couponPerUserLimitHit, hpl, hL0, hcount]
    have hnl : ¬ (now < c.valid_from) := not_lt.mpr hvf
    simp [validateAndApplyCoupon, strTruthy, hcode, hfc, hact, hnl, hexp, hmin, hglob, hput]

/-- Product for the C8 witness store. -/
def c8prod : Product := ⟨1, "P", 100, 100, 10, true⟩

/-- Fixed coupon with a per-user limit of one use. -/
def c8oneCoupon : Coupon :=
  ⟨21, "LIM1", .fixed, 5, none, none, 0, some 1, 0, none, none, true⟩

/-- The same coupon after one redemption. -/
def c8oneUsed : Coupon := { c8oneCoupon with usage_count := 1 }

/-- C8 witness store: one product, the limited coupon, no usage rows. -/
def c8wdb : DB := ⟨[c8prod], [], [], [], [c8oneCoupon], [], [], 1, 1, 1⟩

/-- Shipping address used by the C8 witness order. -/
def c8waddr : ShippingAddress := ⟨"G", "g@x.io", "99", "St", "C", "S", "11"⟩

/-- The order persisted by the C8 witness run. -/
def c8wOrder : Order :=
  ⟨1, 7, "", 100, 5, 95, "cod", .unpaid, .placed, none, c8waddr, some "LIM1", 3, 3⟩

/-- The committed store after the C8 witness run. -/
def c8wdbOut : DB :=
  ⟨[⟨1, "P", 100, 100, 9, true⟩], [], [c8wOrder],
   [⟨1, 1, 1, 100⟩], [c8oneUsed], [⟨21, 7, 1, 5, 3⟩], [], 2, 1, 1⟩

/-- **C8, witness.**  One successful order applying the per-user-limited
coupon appends one usage row (part a), after which the next attempt by the
same user is rejected with the per-user-limit reason (part b). -/
theorem claim8_witness :
    createOrderService 3 c8wdb 7 [⟨1, 1⟩] c8waddr "cod" (some "LIM1") = (c8wdbOut, .ok c8wOrder)
    ∧ findCoupon c8wdb "LIM1" = some c8oneCoupon
    ∧ 0 < c8wOrder.discount_amount
    ∧ usageCount c8wdbOut c8oneCoupon.id 7 = usageCount c8wdb c8oneCoupon.id 7 + 1
    ∧ validateAndApplyCoupon 4 c8wdbOut (some "LIM1") 7 100 = .error .perUserLimitExceeded := by
  have hup : pyUpper "LIM1" = "LIM1" := by decide
  have hvi : validateItems c8wdb [⟨1, 1⟩] = .ok (100, [(1, 1, 100)]) := by
    simp [validateItems, getProduct, c8wdb, c8prod, itemPrice, List.find?]
  have hvc : validateAndApplyCoupon 3 c8wdb (some "LIM1") 7 100
      = .ok (95, 5, some c8oneCoupon) := by
    have hfc : findCoupon c8wdb "LIM1" = some c8oneCoupon := by decide
    have huc : usageCount c8wdb 21 7 = 0 := by decide
    simp [validateAndApplyCoupon, strTruthy, hfc, huc, couponDiscount, couponExpired,
          couponBelowMinimum, couponGlobalLimitHit, couponPerUserLimitHit, c8oneCoupon]
    norm_num
  have h : createOrderService 3 c8wdb 7 [⟨1, 1⟩] c8waddr "cod" (some "LIM1")
      = (c8wdbOut, .ok c8wOrder) := by
    unfold createOrderService
    rw [hvi]
    dsimp only
    rw [hvc]
    dsimp only
    simp [applyStockDecrements, decrementStock, addrJson, strTruthy, hup, c8wdb,
          c8prod, c8wdbOut, c8wOrder, c8oneUsed, c8oneCoupon, c8waddr]
  have hfc : findCoupon c8wdb "LIM1" = some c8oneCoupon := by decide
  have hdp : (0 : ℚ) < c8wOrder.discount_amount := by norm_num [c8wOrder]
  refine ⟨h, hfc, hdp, ?_, ?_⟩
  · exact claim8_amended.1 3 c8wdb 7 [⟨1, 1⟩] c8waddr "cod" "LIM1" c8wdbOut c8wOrder
      c8oneCoupon h hfc hdp
  · exact claim8_amended.2 4 c8wdbOut "LIM1" 7 100 c8oneUsed 1 (by decide) (by decide)
      rfl (by decide) (by decide) rfl (by decide) (by decide) (by decide) (by decide)

/-! ### Order-assembler structure lemmas (shared) -/

/-- Success of the validation/pricing loop pins down the pending items and
the running total, and certifies every line item (product present, active,
quantity within stock). -/
theorem validateItems_ok {db : DB} : ∀ {items : List LineItem} {t : ℚ}
    {pending : List (Int × Int × ℚ)},
    validateItems db items = .ok (t, pending) →
    pending = items.map (fun it => (it.product_id, it.quantity,
        match getProduct db it.product_id with | some p => itemPrice p | none => 0))
    ∧ t = (items.map (fun it =>
        match getProduct db it.product_id with
        | some p => itemPrice p * (it.quantity : ℚ)
        | none => 0)).sum
    ∧ ∀ it ∈ items, ∃ p, getProduct db it.product_id = some p ∧ p.is_active = true
        ∧ it.quantity ≤ p.stock_quantity := by
  intro items
  induction items with
  | nil =>
    intro t pending h
    simp [validateItems] at h
    simp [h.1.symm, h.2.symm]
  | cons it rest ih =>
    intro t pending h
    unfold validateItems at h
    cases hp : getProduct db it.product_id with
    | none => rw [hp] at h; simp at h
    | some p =>
      rw [hp] at h
      dsimp only at h
      split at h
      · simp at h
      split at h
      · simp at h
      rename_i hact hstock
      cases hrest : validateItems db rest with
      | error e => rw [hrest] at h; simp at h
      | ok tp =>
        obtain ⟨t', pending'⟩ := tp
        rw [hrest] at h
        simp at h
        obtain ⟨ht, hpend⟩ := h
        obtain ⟨ihp, iht, ihgood⟩ := ih hrest
        refine ⟨?_, ?_, ?_⟩
        · rw [← hpend, ihp]
          simp [hp]
        · rw [← ht, iht]
          simp [hp]
        · intro x hx
          rcases List.mem_cons.mp hx with rfl | hx'
          · exact ⟨p, hp, by simpa using hact, by simpa using not_lt.mp hstock⟩
          · exact ihgood x hx'

/-- A line item the code rejects: missing product, inactive product, or
quantity above stock. -/
def itemBad (db : DB) (it : LineItem) : Bool :=
  match getProduct db it.product_id with
  | none => true
  | some p => p.is_active = false || p.stock_quantity < it.quantity

/-- Any bad line item makes the validation/pricing loop fail. -/
theorem validateItems_err_of_bad {db : DB} : ∀ {items : List LineItem},
    (∃ it ∈ items, itemBad db it = true) →
    ∃ e, validateItems db items = .error e := by
  intro items
  induction items with
  | nil => intro h; simp at h
  | cons it rest ih =>
    intro h
    unfold validateItems
    cases hp : getProduct db it.product_id with
    | none => exact ⟨.productNotFound it.product_id, by simp [hp]⟩
    | some p =>
      by_cases hact : p.is_active = false
      · exact ⟨.productInactive it.product_id, by simp [hp, hact]⟩
      by_cases hstock : p.stock_quantity < it.quantity
      · refine ⟨.insufficientStock it.product_id, ?_⟩
        simp [hp, hact, hstock]
      · have hbad : ∃ x ∈ rest, itemBad db x = true := by
          rcases h with ⟨x, hx, hxbad⟩
          rcases List.mem_cons.mp hx with rfl | hx'
          · exfalso
            rw [itemBad, hp] at hxbad
            simp [hact, hstock] at hxbad
          · exact ⟨x, hx', hxbad⟩
        obtain ⟨e, he⟩ := ih hbad
        refine ⟨e, ?_⟩
        simp [hp, hact, hstock, he]

/-- Projections of a successful `create_order` run: the validation and
coupon outcomes, the shape of the persisted order, and the committed
state's tables. -/
theorem createOrderService_ok_facts {now : Nat} {db : DB} {uid : Nat}
    {items : List LineItem} {addr : ShippingAddress} {method : String}
    {code? : Option String} {db' : DB} {o : Order}
    (h : createOrderService now db uid items addr method code? = (db', .ok o)) :
    ∃ t pending f d copt,
      validateItems db items = .ok (t, pending)
      ∧ validateAndApplyCoupon now db code? uid t = .ok (f, d, copt)
      ∧ o.id = db.nextOrderId ∧ o.user_id = uid ∧ o.total_amount = t
      ∧ o.discount_amount = d ∧ o.final_amount = f
      ∧ o.shipping_address = addr ∧ o.order_status = .placed
      ∧ o.payment_status = (if method = "online" then .paid else .unpaid)
      ∧ db'.orders = db.orders ++ [o]
      ∧ db'.orderItems = db.orderItems ++ pending.map (fun x =>
          ({ order_id := o.id, product_id := x.1, quantity := x.2.1,
             price_at_purchase := x.2.2 } : OrderItem))
      ∧ db'.products = applyStockDecrements db.products pending
      ∧ db'.payments = db.payments
      ∧ db'.nextOrderId = db.nextOrderId + 1 := by
  unfold createOrderService at h
  cases hvi : validateItems db items with
  | error e => rw [hvi] at h; simp at h
  | ok tp =>
    obtain ⟨t, pending⟩ := tp
    rw [hvi] at h
    dsimp only at h
    cases hvc : validateAndApplyCoupon now db code? uid t with
    | error e => rw [hvc] at h; simp at h
    | ok fdc =>
      obtain ⟨f, d, copt⟩ := fdc
      rw [hvc] at h
      dsimp only at h
      simp at h
      obtain ⟨hdb, ho⟩ := h
      subst hdb
      subst ho
      refine ⟨t, pending, f, d, copt, rfl, hvc, ?_⟩
      cases copt with
      | none =>
        exact ⟨rfl, rfl, rfl, rfl, rfl, rfl, rfl, rfl, rfl, rfl, rfl, rfl, rfl⟩
      | some cc =>
        dsimp only
        by_cases h0 : 0 < d
        · rw [if_pos h0]
          exact ⟨rfl, rfl, rfl, rfl, rfl, rfl, rfl, rfl, rfl, rfl, rfl, rfl, rfl⟩
        · rw [if_neg h0]
          exact ⟨rfl, rfl, rfl, rfl, rfl, rfl, rfl, rfl, rfl, rfl, rfl, rfl, rfl⟩

/-! ### Claim C1 — server-side authoritative pricing -/

/-- **C1.**  Every successfully persisted order's `total_amount` equals the
sum over the submitted line items of `quantity ×` the authoritative unit
price read from the `Product` row at order time (`selling_price` when
truthy, else `mrp`), and each persisted `OrderItem` snapshots exactly that
price as `price_at_purchase`.  Independence of any client-submitted price
is structural: the request item schema (`OrderCreateItem`, here
`LineItem`) carries only a product id and a quantity — no price or total
field exists to be trusted. -/
theorem claim1_authoritative_pricing {now : Nat} {db : DB} {uid : Nat}
    {items : List LineItem} {addr : ShippingAddress} {method : String}
    {code? : Option String} {db' : DB} {o : Order}
    (h : createOrderService now db uid items addr method code? = (db', .ok o)) :
    (∀ it ∈ items, ∃ p, getProduct db it.product_id = some p)
    ∧ o.total_amount = (items.map (fun it =>
        match getProduct db it.product_id with
        | some p => itemPrice p * (it.quantity : ℚ)
        | none => 0)).sum
    ∧ db'.orderItems = db.orderItems ++ items.map (fun it =>
        ({ order_id := o.id, product_id := it.product_id, quantity := it.quantity,
           price_at_purchase := match getProduct db it.product_id with
                                | some p => itemPrice p
                                | none => 0 } : OrderItem))
    ∧ o ∈ db'.orders := by
  obtain ⟨t, pending, f, d, copt, hvi, hvc, hid, huid, htot, hdisc, hfin, haddr, hstat,
    hpay, horders, hitems, hprods, hpays, hnext⟩ := createOrderService_ok_facts h
  obtain ⟨hpend, ht, hgood⟩ := validateItems_ok hvi
  refine ⟨?_, ?_, ?_, ?_⟩
  · intro it hit
    obtain ⟨p, hp, _, _⟩ := hgood it hit
    exact ⟨p, hp⟩
  · rw [htot, ht]
  · rw [hitems, hpend, List.map_map]
    rfl
  · rw [horders]
    exact List.mem_append_right _ (List.mem_singleton.mpr rfl)

/-- Product of the C1 witness (the spec's worked example:
`selling_price = 1499`, `stock_quantity = 100`). -/
def c1prod : Product := ⟨1, "A", 2000, 1499, 100, true⟩

/-- Shipping address of the C1/C2 witnesses. -/
def c1addr : ShippingAddress := ⟨"N", "n@x.io", "7", "St", "C", "S", "22"⟩

/-- C1/C2 witness store: one product, nothing else. -/
def c1db : DB := ⟨[c1prod], [], [], [], [], [], [], 1, 1, 1⟩

/-- The order persisted by the C1 witness run (`quantity = 2`,
`total = 2998`). -/
def c1order : Order :=
  ⟨1, 5, "", 2998, 0, 2998, "cod", .unpaid, .placed, none, c1addr, none, 0, 0⟩

/-- The committed store after the C1 witness run (stock 100 → 98). -/
def c1dbOut : DB :=
  ⟨[⟨1, "A", 2000, 1499, 98, true⟩], [], [c1order], [⟨1, 1, 2, 1499⟩], [], [], [], 2, 1, 1⟩

/-- **C1, witness.**  Ordering quantity 2 of the 1499-priced product
persists `total_amount = 2998` and one item row snapshotting price 1499. -/
theorem claim1_witness :
    createOrderService 0 c1db 5 [⟨1, 2⟩] c1addr "cod" none = (c1dbOut, .ok c1order)
    ∧ c1order.total_amount = (([⟨1, 2⟩] : List LineItem).map (fun it =>
        match getProduct c1db it.product_id with
        | some p => itemPrice p * (it.quantity : ℚ)
        | none => 0)).sum
    ∧ c1dbOut.orderItems = c1db.orderItems ++ ([⟨1, 2⟩] : List LineItem).map (fun it =>
        ({ order_id := c1order.id, product_id := it.product_id, quantity := it.quantity,
           price_at_purchase := match getProduct c1db it.product_id with
                                | some p => itemPrice p
                                | none => 0 } : OrderItem))
    ∧ c1order ∈ c1dbOut.orders := by
  have hvi : validateItems c1db [⟨1, 2⟩] = .ok (2998, [(1, 2, 1499)]) := by
    simp [validateItems, getProduct, c1db, c1prod, itemPrice, List.find?]
    norm_num
  have h : createOrderService 0 c1db 5 [⟨1, 2⟩] c1addr "cod" none
      = (c1dbOut, .ok c1order) := by
    unfold createOrderService
    rw [hvi]
    dsimp only
    rw [show validateAndApplyCoupon 0 c1db none 5 2998 = .ok (2998, 0, none) from by
      simp [validateAndApplyCoupon, strTruthy]]
    dsimp only
    simp [applyStockDecrements, decrementStock, addrJson, strTruthy, c1db, c1prod,
          c1dbOut, c1order, c1addr]
  have hc := claim1_authoritative_pricing h
  exact ⟨h, hc.2.1, hc.2.2.1, hc.2.2.2⟩

/-- Every failure of `OrderService.create_order` is raised before the
first commit, so the committed state is returned unchanged. -/
theorem createOrderService_error_frame {now : Nat} {db : DB} {uid : Nat}
    {items : List LineItem} {addr : ShippingAddress} {method : String}
    {code? : Option String} {db' : DB} {e : OrderErr}
    (h : createOrderService now db uid items addr method code? = (db', .error e)) :
    db' = db := by
  unfold createOrderService at h
  cases hvi : validateItems db items with
  | error e' => rw [hvi] at h; simp at h; exact h.1.symm
  | ok tp =>
    obtain ⟨t, pending⟩ := tp
    rw [hvi] at h
    dsimp only at h
    cases hvc : validateAndApplyCoupon now db code? uid t with
    | error e' => rw [hvc] at h; simp at h; exact h.1.symm
    | ok fdc =>
      obtain ⟨f, d, copt⟩ := fdc
      rw [hvc] at h
      dsimp only at h
      simp at h

/-! ### Claim C2 — all-or-nothing order creation on failure -/

/-- **C2.**  (i) Any failing `create_order` call leaves the store exactly
as it was — no `Order`, `OrderItem`, stock, `CouponUsage` or
`usage_count` write survives (every `HTTPException` is raised before the
first commit); (ii) a missing/inactive product or an over-stock quantity
in any line item forces a failure; (iii) so does a coupon rejected by the
validator when the items themselves validate. -/
theorem claim2_error_atomicity :
    (∀ (now : Nat) (db : DB) (uid : Nat) (items : List LineItem) (addr : ShippingAddress)
       (method : String) (code? : Option String) (db' : DB) (e : OrderErr),
      createOrderService now db uid items addr method code? = (db', .error e) → db' = db)
    ∧ (∀ (now : Nat) (db : DB) (uid : Nat) (items : List LineItem) (addr : ShippingAddress)
       (method : String) (code? : Option String),
      (∃ it ∈ items, itemBad db it = true) →
      ∃ e, (createOrderService now db uid items addr method code?).2 = .error e)
    ∧ (∀ (now : Nat) (db : DB) (uid : Nat) (items : List LineItem) (addr : ShippingAddress)
       (method : String) (code? : Option String) (t : ℚ)
       (pending : List (Int × Int × ℚ)) (e : CouponErr),
      validateItems db items = .ok (t, pending) →
      validateAndApplyCoupon now db code? uid t = .error e →
      createOrderService now db uid items addr method code? = (db, .error (.coupon e))) := by
  refine ⟨?_, ?_, ?_⟩
  · intro now db uid items addr method code? db' e h
    exact createOrderService_error_frame h
  · intro now db uid items addr method code? hbad
    obtain ⟨e, he⟩ := validateItems_err_of_bad hbad
    refine ⟨e, ?_⟩
    unfold createOrderService
    rw [he]
  · intro now db uid items addr method code? t pending e hvi hvc
    unfold createOrderService
    rw [hvi]
    dsimp only
    rw [hvc]

/-- **C2, witness.**  Quantity 101 against stock 100 is a bad line item;
the call fails and returns the untouched store; and a nonexistent coupon
code aborts the whole order with the coupon reason. -/
theorem claim2_witness :
    (∃ it ∈ ([⟨1, 101⟩] : List LineItem), itemBad c1db it = true)
    ∧ (∃ e, (createOrderService 0 c1db 5 [⟨1, 101⟩] c1addr "cod" none).2 = .error e)
    ∧ (createOrderService 0 c1db 5 [⟨1, 101⟩] c1addr "cod" none).1 = c1db
    ∧ createOrderService 0 c1db 5 [⟨1, 2⟩] c1addr "cod" (some "NOPE")
        = (c1db, .error (.coupon .invalidCode)) := by
  have hbad : ∃ it ∈ ([⟨1, 101⟩] : List LineItem), itemBad c1db it = true :=
    ⟨⟨1, 101⟩, by decide, by decide⟩
  have hex := claim2_error_atomicity.2.1 0 c1db 5 [⟨1, 101⟩] c1addr "cod" none hbad
  obtain ⟨e, he⟩ := hex
  have hpair : createOrderService 0 c1db 5 [⟨1, 101⟩] c1addr "cod" none
      = ((createOrderService 0 c1db 5 [⟨1, 101⟩] c1addr "cod" none).1, .error e) := by
    have : createOrderService 0 c1db 5 [⟨1, 101⟩] c1addr "cod" none
        = ((createOrderService 0 c1db 5 [⟨1, 101⟩] c1addr "cod" none).1,
           (createOrderService 0 c1db 5 [⟨1, 101⟩] c1addr "cod" none).2) := rfl
    rw [he] at this
    exact this
  refine ⟨hbad, ⟨e, he⟩,
    claim2_error_atomicity.1 0 c1db 5 [⟨1, 101⟩] c1addr "cod" none _ e hpair, ?_⟩
  have hvi : validateItems c1db [⟨1, 2⟩] = .ok (2998, [(1, 2, 1499)]) := by
    simp [validateItems, getProduct, c1db, c1prod, itemPrice, List.find?]
    norm_num
  have hvc : validateAndApplyCoupon 0 c1db (some "NOPE") 5 2998 = .error .invalidCode := by
    have hfc : findCoupon c1db "NOPE" = none := by decide
    simp [validateAndApplyCoupon, strTruthy, hfc]
  exact claim2_error_atomicity.2.2 0 c1db 5 [⟨1, 2⟩] c1addr "cod" (some "NOPE")
    2998 [(1, 2, 1499)] .invalidCode hvi hvc

/-! ### Claim C10 — guest-user write committed before order validation -/

/-- **C10.**  On an unauthenticated `POST /orders/` whose order part fails
validation, the user write performed first — a new guest `User` row, or
the overwrite of the matching user's name/phone/address — stays committed,
and nothing else changes: products, orders, order items, coupons, coupon
usages and payments are untouched; only the row keyed by the shipping
email is created or updated.  (User primary keys are assumed unique, as
the database guarantees.) -/
theorem claim10_guest_user_persists {now : Nat} {db : DB} {items : List LineItem}
    {addr : ShippingAddress} {method : String} {code? : Option String}
    {db' : DB} {e : OrderErr}
    (hids : (db.users.map (fun u => u.id)).Nodup)
    (h : routeCreateOrder now db none items addr method code? = (db', .error e)) :
    db'.products = db.products ∧ db'.orders = db.orders
    ∧ db'.orderItems = db.orderItems ∧ db'.coupons = db.coupons
    ∧ db'.couponUsages = db.couponUsages ∧ db'.payments = db.payments
    ∧ (∃ u ∈ db'.users, u.email = addr.email ∧ u.name = some addr.full_name
        ∧ u.phone = some addr.phone ∧ u.address = some (addrJson addr))
    ∧ (∀ u ∈ db.users, u.email ≠ addr.email → u ∈ db'.users)
    ∧ (match db.users.find? (fun u => u.email == addr.email) with
       | some _ => db'.users.length = db.users.length
       | none => db'.users.length = db.users.length + 1) := by
  unfold routeCreateOrder at h
  cases hfind : db.users.find? (fun u => u.email == addr.email) with
  | some existing =>
    rw [hfind] at h
    dsimp only at h
    have hframe := createOrderService_error_frame h
    subst hframe
    have hmem : existing ∈ db.users := List.mem_of_find?_eq_some hfind
    have hpred := List.find?_some hfind
    have hemail : existing.email = addr.email := by simpa using hpred
    refine ⟨rfl, rfl, rfl, rfl, rfl, rfl, ?_, ?_, ?_⟩
    · refine ⟨overwriteUser addr existing, ?_,
        by simpa [overwriteUser] using hemail, rfl, rfl, rfl⟩
      have := List.mem_map_of_mem
        (fun u => if (u.id == existing.id) = true then overwriteUser addr u else u) hmem
      simpa using this
    · intro u hu hne
      by_cases hid : u.id = existing.id
      · exact absurd (congrArg User.email
          (List.inj_on_of_nodup_map hids hu hmem hid)) (by simpa [hemail] using hne)
      · have := List.mem_map_of_mem
          (fun u => if (u.id == existing.id) = true then overwriteUser addr u else u) hu
        simpa [hid] using this
    · simp [hfind]
  | none =>
    rw [hfind] at h
    dsimp only at h
    have hframe := createOrderService_error_frame h
    subst hframe
    refine ⟨rfl, rfl, rfl, rfl, rfl, rfl, ?_, ?_, ?_⟩
    · exact ⟨_, List.mem_append_right _ (List.mem_singleton.mpr rfl), rfl, rfl, rfl, rfl⟩
    · intro u hu _
      exact List.mem_append_left _ hu
    · simp [hfind]

/-- The store after the failed C10 witness request: the guest row is
committed, nothing else changed. -/
def c10dbOut : DB :=
  ⟨[c1prod],
   [⟨1, some "N", "n@x.io", some "7", "guest_account_placeholder",
     some ⟨"St", "C", "S", "22"⟩, true, false, false, true⟩],
   [], [], [], [], [], 1, 2, 1⟩

/-- **C10, witness.**  An unauthenticated order for a nonexistent product
fails, yet the guest user row created first remains persisted; every other
table is unchanged. -/
theorem claim10_witness :
    routeCreateOrder 0 c1db none [⟨99, 1⟩] c1addr "cod" none
      = (c10dbOut, .error (.productNotFound 99))
    ∧ c10dbOut.products = c1db.products ∧ c10dbOut.orders = c1db.orders
    ∧ (∃ u ∈ c10dbOut.users, u.email = c1addr.email ∧ u.name = some c1addr.full_name
        ∧ u.phone = some c1addr.phone ∧ u.address = some (addrJson c1addr))
    ∧ c10dbOut.users.length = c1db.users.length + 1 := by
  have h : routeCreateOrder 0 c1db none [⟨99, 1⟩] c1addr "cod" none
      = (c10dbOut, .error (.productNotFound 99)) := by decide
  have hc := claim10_guest_user_persists (by decide) h
  refine ⟨h, hc.1, hc.2.1, hc.2.2.2.2.2.2.1, ?_⟩
  have := hc.2.2.2.2.2.2.2.2
  simpa using this

/-! ### Claim C3 — admin order-status update -/

/-- An order in status `placed` for the C3 run. -/
def c3order : Order :=
  ⟨1, 5, "PR000001", 100, 0, 100, "cod", .unpaid, .placed, none, c1addr, none, 0, 0⟩

/-- Store holding the `placed` order. -/
def c3db : DB := ⟨[], [], [c3order], [], [], [], [], 2, 1, 1⟩

/-- The order as `update_status` actually persists it: `updated_at`
advanced, `order_status` untouched. -/
def c3orderOut : Order :=
  ⟨1, 5, "PR000001", 100, 0, 100, "cod", .unpaid, .placed, none, c1addr, none, 0, 5⟩

/-- The store after the C3 run. -/
def c3dbOut : DB := ⟨[], [], [c3orderOut], [], [], [], [], 2, 1, 1⟩

/-- **C3 (code bug), behaviour at the failing input.**  The admin endpoint
`PATCH /orders/1/status?status=shipped` (superuser) reaches
`OrderService.update_status`, which accepts the request without any
transition check — but the write `order.status = new_status` targets an
attribute that is not a column of the `Order` model (the column is
`order_status`), so the persisted and returned `order_status` remains
`placed` instead of becoming `shipped`; only `updated_at` changes. -/
theorem claim3_code_behavior :
    updateStatusService 5 c3db 1 .shipped none = .ok (c3dbOut, c3orderOut)
    ∧ c3orderOut.order_status = .placed
    ∧ c3orderOut.updated_at = 5
    ∧ OrderStatus.placed ≠ OrderStatus.shipped := by decide

/-! ### Claim C9 — guest order tracking by order number + email -/

/-- The tracked order, shipped to `owner@x.io`. -/
def c9order : Order :=
  ⟨1, 5, "PR000001", 100, 0, 100, "cod", .unpaid, .placed, none,
   ⟨"N", "owner@x.io", "7", "St", "C", "S", "22"⟩, none, 0, 0⟩

/-- Store holding the tracked order. -/
def c9db : DB := ⟨[], [], [c9order], [], [], [], [], 2, 1, 1⟩

/-- **C9, counterexample.**  The claim says details are returned *only
when* the supplied email matches the order's shipping email.  An
unauthenticated request that supplies no `X-User-Email` header at all is
given the full details: the check runs only under
`if not current_user and x_user_email:`. -/
theorem claim9_counterexample :
    trackOrder c9db "PR000001" none none = .ok c9order
    ∧ c9order.shipping_address.email = "owner@x.io" := by decide

/-- **C9 (amended).**  For an unauthenticated request on an existing order
number: when a non-empty email is supplied, the details are returned iff
it equals the order's shipping email and the request is rejected iff it
differs; when no (or an empty) email is supplied, the details are returned
with no check at all. -/
theorem claim9_amended {db : DB} {num : String} {o : Order}
    (hfind : db.orders.find? (fun x => x.order_number == pyUpper (pyStrip num)) = some o) :
    (∀ e : String, e ≠ "" →
      trackOrder db num none (some e)
        = (if o.shipping_address.email = e then .ok o else .error .emailMismatch))
    ∧ trackOrder db num none none = .ok o
    ∧ trackOrder db num none (some "") = .ok o := by
  refine ⟨?_, ?_, ?_⟩
  · intro e he
    unfold trackOrder
    rw [hfind]
    dsimp only
    by_cases heq : o.shipping_address.email = e
    · simp [strTruthy, he, heq]
    · simp [strTruthy, he, heq]
  · unfold trackOrder
    rw [hfind]
    simp [strTruthy]
  · unfold trackOrder
    rw [hfind]
    simp [strTruthy]

/-- **C9, witness.**  Tracking `pr000001` (normalised to `PR000001`)
unauthenticated: the matching email is served the details, a different
email is rejected. -/
theorem claim9_witness :
    c9db.orders.find? (fun x => x.order_number == pyUpper (pyStrip "pr000001")) = some c9order
    ∧ trackOrder c9db "pr000001" none (some "owner@x.io") = .ok c9order
    ∧ trackOrder c9db "pr000001" none (some "other@x.io") = .error .emailMismatch := by
  have hfind : c9db.orders.find? (fun x => x.order_number == pyUpper (pyStrip "pr000001"))
      = some c9order := by decide
  have hmatch := (claim9_amended hfind).1 "owner@x.io" (by decide)
  have hdiff := (claim9_amended hfind).1 "other@x.io" (by decide)
  rw [if_pos (by decide)] at hmatch
  rw [if_neg (by decide)] at hdiff
  exact ⟨hfind, hmatch, hdiff⟩

/-! ### Webhook structure lemmas (shared) -/

/-- A successfully extracted entity is a JSON object (its `['id']` access
succeeded). -/
theorem extractEntity_obj {ev entity pid} (h : extractEntity ev = .ok (some (entity, pid))) :
    ∃ fs, entity = .obj fs := by
  unfold extractEntity at h
  cases h1 : ev.index "event" with
  | error e => rw [h1] at h; simp at h
  | ok name =>
    rw [h1] at h
    dsimp only at h
    by_cases hn : name = .str "payment.captured"
    · rw [if_neg (by simp [hn])] at h
      cases h2 : ev.index "payload" with
      | error e => rw [h2] at h; simp at h
      | ok payload =>
        rw [h2] at h
        dsimp only at h
        cases h3 : payload.index "payment" with
        | error e => rw [h3] at h; simp at h
        | ok payment =>
          rw [h3] at h
          dsimp only at h
          cases h4 : payment.index "entity" with
          | error e => rw [h4] at h; simp at h
          | ok ent =>
            rw [h4] at h
            dsimp only at h
            cases h5 : ent.index "id" with
            | error e => rw [h5] at h; simp at h
            | ok pid' =>
              rw [h5] at h
              simp at h
              obtain ⟨hent, -⟩ := h
              subst hent
              cases ent with
              | obj fs => exact ⟨fs, rfl⟩
              | null => simp [JValue.index] at h5
              | bool b => simp [JValue.index] at h5
              | num q => simp [JValue.index] at h5
              | str s => simp [JValue.index] at h5
    · rw [if_pos (by simp [hn])] at h
      simp at h

/-- The fallback resolution never raises on an object entity. -/
theorem resolveFallback_isOk (db : DB) (fs : JFields) :
    (resolveFallback db (.obj fs)).isOk = true := by
  unfold resolveFallback
  dsimp only [JValue.getOpt]
  cases fs.find "order_id" with
  | none => rfl
  | some v =>
    dsimp only
    by_cases ht : v.truthy = true
    · rw [if_pos ht]
      cases db.payments.find? (fun p => p.razorpay_order_id == some v) with
      | none => rfl
      | some rec =>
        dsimp only
        cases db.orders.find? (fun o => o.id == rec.order_id) with
        | none => rfl
        | some o => rfl
    · rw [if_neg ht]
      rfl

/-- On an object entity, resolution raises exactly when the note-access
path is broken (`noteOk` is false). -/
theorem resolveTarget_isOk (db : DB) (fs : JFields) :
    (resolveTarget db (.obj fs)).isOk = noteOk (.obj fs) := by
  unfold resolveTarget noteOk extractNote
  have hg : (JValue.obj fs).getOpt "notes" = .ok (fs.find "notes") := rfl
  rw [hg]
  dsimp only
  cases hnv : (fs.find "notes").getD (.obj .nil) with
  | null => rfl
  | bool b => rfl
  | num q => rfl
  | str s => rfl
  | obj fs2 =>
    have hg2 : (JValue.obj fs2).getOpt "internal_order_id"
        = .ok (fs2.find "internal_order_id") := rfl
    rw [hg2]
    dsimp only
    by_cases ht : jOptTruthy (fs2.find "internal_order_id") = true
    · rw [if_pos ht, if_pos ht]
      cases h3 : pyInt ((fs2.find "internal_order_id").getD .null) with
      | error e => rfl
      | ok oid =>
        dsimp only
        cases getOrderI db oid with
        | none => rfl
        | some o => rfl
    · rw [if_neg ht, if_neg ht]
      exact resolveFallback_isOk db fs

/-- `envelopeOk` states exactly the success condition of the handler's
structured accesses. -/
theorem envelopeOk_spec (ev : JValue) :
    envelopeOk ev = (match extractEntity ev with
      | .error _ => false
      | .ok none => true
      | .ok (some (entity, _)) => noteOk entity) := by
  unfold envelopeOk extractEntity
  cases h1 : ev.index "event" with
  | error e => rfl
  | ok name =>
    dsimp only
    by_cases hn : name = .str "payment.captured"
    · rw [if_neg (by simp [hn]), if_neg (by simp [hn])]
      cases h2 : ev.index "payload" with
      | error e => rfl
      | ok payload =>
        dsimp only
        cases h3 : payload.index "payment" with
        | error e => rfl
        | ok payment =>
          dsimp only
          cases h4 : payment.index "entity" with
          | error e => rfl
          | ok entity =>
            dsimp only
            cases h5 : entity.index "id" with
            | error e => simp [Except.isOk, Except.toBool]
            | ok pid => simp [Except.isOk, Except.toBool]
    · rw [if_pos (by simp [hn]), if_pos (by simp [hn])]

/-- The webhook acknowledges exactly the requests `acceptsRequest`
describes: truthy header, verifying signature, parseable body, well-formed
envelope. -/
theorem paymentWebhook_isOk (verify : String → String → Bool)
    (parse : String → Option JValue) (now : Nat) (db : DB)
    (sig? : Option String) (body : String) :
    (paymentWebhook verify parse now db sig? body).2.isOk
      = acceptsRequest verify parse sig? body := by
  unfold paymentWebhook acceptsRequest
  cases sig? with
  | none => simp [strTruthy, Except.isOk, Except.toBool]
  | some s =>
    by_cases hs : s = ""
    · simp [strTruthy, hs, Except.isOk, Except.toBool]
    · by_cases hv : verify body s = true
      · cases hp : parse body with
        | none => simp [strTruthy, hs, hv, Except.isOk, Except.toBool]
        | some ev =>
          dsimp only
          rw [envelopeOk_spec]
          cases hx : extractEntity ev with
          | error e => simp [strTruthy, hs, hv, hx, Except.isOk, Except.toBool]
          | ok oe =>
            cases oe with
            | none => simp [strTruthy, hs, hv, hx, Except.isOk, Except.toBool]
            | some ep =>
              obtain ⟨entity, pid⟩ := ep
              obtain ⟨fs, rfl⟩ := extractEntity_obj hx
              cases hr : resolveTarget db (.obj fs) with
              | error e =>
                have hn : noteOk (.obj fs) = false := by
                  rw [← resolveTarget_isOk db fs, hr]
                  rfl
                simp [strTruthy, hs, hv, hx, hr, hn, Except.isOk, Except.toBool]
              | ok r =>
                have hn : noteOk (.obj fs) = true := by
                  rw [← resolveTarget_isOk db fs, hr]
                  rfl
                cases r with
                | none => simp [strTruthy, hs, hv, hx, hr, hn, Except.isOk, Except.toBool]
                | some orp =>
                  obtain ⟨o, rec?⟩ := orp
                  have hgo : (JValue.obj fs).getOpt "order_id"
                      = .ok (fs.find "order_id") := rfl
                  have hgs : (JValue.obj fs).getOpt "signature"
                      = .ok (fs.find "signature") := rfl
                  simp [strTruthy, hs, hv, hx, hr, hn, hgo, hgs,
                        Except.isOk, Except.toBool]
      · rw [Bool.not_eq_true] at hv
        simp [strTruthy, hs, hv, Except.isOk, Except.toBool]

/-- Every rejected webhook request leaves the store untouched (all raises
happen before the single commit). -/
theorem paymentWebhook_err_frame (verify : String → String → Bool)
    (parse : String → Option JValue) (now : Nat) (db : DB)
    (sig? : Option String) (body : String) :
    (paymentWebhook verify parse now db sig? body).2.isOk = false →
    (paymentWebhook verify parse now db sig? body).1 = db := by
  unfold paymentWebhook
  cases sig? with
  | none => intro _; rfl
  | some s =>
    by_cases hs : s = ""
    · simp [strTruthy, hs]
    · by_cases hv : verify body s = true
      · cases hp : parse body with
        | none => simp [strTruthy, hs, hv]
        | some ev =>
          cases hx : extractEntity ev with
          | error e => simp [strTruthy, hs, hv, hx]
          | ok oe =>
            cases oe with
            | none => simp [strTruthy, hs, hv, hx, Except.isOk, Except.toBool]
            | some ep =>
              obtain ⟨entity, pid⟩ := ep
              cases hr : resolveTarget db entity with
              | error e => simp [strTruthy, hs, hv, hx, hr]
              | ok r =>
                cases r with
                | none => simp [strTruthy, hs, hv, hx, hr, Except.isOk, Except.toBool]
                | some orp =>
                  obtain ⟨o, rec?⟩ := orp
                  cases ho : entity.getOpt "order_id" with
                  | error e => simp [strTruthy, hs, hv, hx, hr, ho]
                  | ok rzp =>
                    cases hsg : entity.getOpt "signature" with
                    | error e => simp [strTruthy, hs, hv, hx, hr, ho, hsg]
                    | ok sigv =>
                      simp [strTruthy, hs, hv, hx, hr, ho, hsg,
                            Except.isOk, Except.toBool]
      · rw [Bool.not_eq_true] at hv
        simp [strTruthy, hs, hv]

/-- Once the request is verified and a captured entity extracted, the
handler is a function of the resolution outcome: unresolved events are
acknowledged untouched, resolved ones get the reconciliation write. -/
theorem paymentWebhook_resolved (verify : String → String → Bool)
    (parse : String → Option JValue) (now : Nat) (db : DB) (sig body : String)
    (ev entity pid : JValue)
    (hs : sig ≠ "") (hv : verify body sig = true) (hp : parse body = some ev)
    (hx : extractEntity ev = .ok (some (entity, pid))) :
    (resolveTarget db entity = .ok none →
      paymentWebhook verify parse now db (some sig) body = (db, .ok ()))
    ∧ (∀ o rec? rzp sigv, resolveTarget db entity = .ok (some (o, rec?)) →
        entity.getOpt "order_id" = .ok rzp → entity.getOpt "signature" = .ok sigv →
        paymentWebhook verify parse now db (some sig) body
          = (applyCapture now db pid rzp sigv o rec?, .ok ())) := by
  constructor
  · intro hr
    unfold paymentWebhook
    simp [strTruthy, hs, hv, hp, hx, hr]
  · intro o rec? rzp sigv hr hro hsg
    unfold paymentWebhook
    simp [strTruthy, hs, hv, hp, hx, hr, hro, hsg]

/-- A truthy note that resolves no order short-circuits resolution to
"none" — the fallback is never consulted. -/
theorem resolveTarget_note_miss {db : DB} {entity v : JValue} {oid : Int}
    (hn : extractNote entity = .ok (some v)) (ht : v.truthy = true)
    (hi : pyInt v = .ok oid) (hmiss : getOrderI db oid = none) :
    resolveTarget db entity = .ok none := by
  unfold resolveTarget
  rw [hn]
  dsimp only
  rw [if_pos (by simpa [jOptTruthy] using ht)]
  simp only [Option.getD_some]
  rw [hi]
  dsimp only
  rw [hmiss]

/-- A truthy note that resolves an order determines the target, paired
with the first stored payment row of that order. -/
theorem resolveTarget_note_hit {db : DB} {entity v : JValue} {oid : Int} {o : Order}
    (hn : extractNote entity = .ok (some v)) (ht : v.truthy = true)
    (hi : pyInt v = .ok oid) (hhit : getOrderI db oid = some o) :
    resolveTarget db entity
      = .ok (some (o, db.payments.find? (fun p => p.order_id == o.id))) := by
  unfold resolveTarget
  rw [hn]
  dsimp only
  rw [if_pos (by simpa [jOptTruthy] using ht)]
  simp only [Option.getD_some]
  rw [hi]
  dsimp only
  rw [hhit]

/-- With no truthy note, resolution goes through the stored Payment row
matching the event's gateway order id. -/
theorem resolveTarget_fallback_hit {db : DB} {entity v : JValue} {note : Option JValue}
    {rec : Payment} {o : Order}
    (hn : extractNote entity = .ok note) (ht : jOptTruthy note = false)
    (hro : entity.getOpt "order_id" = .ok (some v)) (htv : v.truthy = true)
    (hrec : db.payments.find? (fun p => p.razorpay_order_id == some v) = some rec)
    (hord : db.orders.find? (fun o => o.id == rec.order_id) = some o) :
    resolveTarget db entity = .ok (some (o, some rec)) := by
  unfold resolveTarget
  rw [hn]
  dsimp only
  rw [if_neg (by simp [ht])]
  unfold resolveFallback
  rw [hro]
  dsimp only
  rw [if_pos htv, hrec]
  dsimp only
  rw [hord]

/-! ### Claim C5 — webhook accept/reject discipline -/

/-- An always-accepting signature verifier: stands for a request whose
HMAC does check out (any byte string can carry a valid signature). -/
def constTrue : String → String → Bool := fun _ _ => true

/-- A parser pinned to one JSON value (stands for `json.loads` on a body
with that content). -/
def parseTo (v : JValue) : String → Option JValue := fun _ => some v

/-- An empty store. -/
def emptyDB : DB := ⟨[], [], [], [], [], [], [], 1, 1, 1⟩

/-- **C5, counterexample.**  The claim says the handler errors *iff* the
signature is missing or fails verification.  A request whose signature is
present and verifies, but whose body is the JSON `{}` (no `event` key),
makes the handler raise a `KeyError` after verification — an error
response with a valid signature. -/
theorem claim5_counterexample :
    strTruthy (some "sig") = true
    ∧ constTrue "body" "sig" = true
    ∧ paymentWebhook constTrue (parseTo (.obj .nil)) 0 emptyDB (some "sig") "body"
        = (emptyDB, .error .internalError) := by decide

/-- **C5 (amended).**  The webhook acknowledges a request with success iff
the signature header is truthy, verification over the raw body passes,
the body parses as JSON *and* the envelope is well-formed for its event
type (`acceptsRequest`); in particular verified well-formed requests of
unhandled event types, and authentic captured events resolving to no
order, are acknowledged.  Every rejected request — missing/invalid
signature or malformed body — leaves the database untouched. -/
theorem claim5_amended (verify : String → String → Bool) (parse : String → Option JValue)
    (now : Nat) (db : DB) (sig? : Option String) (body : String) :
    (paymentWebhook verify parse now db sig? body).2.isOk
        = acceptsRequest verify parse sig? body
    ∧ ((paymentWebhook verify parse now db sig? body).2.isOk = false →
        (paymentWebhook verify parse now db sig? body).1 = db) :=
  ⟨paymentWebhook_isOk verify parse now db sig? body,
   paymentWebhook_err_frame verify parse now db sig? body⟩

/-- **C5, witness.**  A verified request whose body does not parse is
rejected and the store is unchanged. -/
theorem claim5_witness :
    (paymentWebhook constTrue (fun _ => none) 0 emptyDB (some "x") "b").2.isOk
        = acceptsRequest constTrue (fun _ => none) (some "x") "b"
    ∧ (paymentWebhook constTrue (fun _ => none) 0 emptyDB (some "x") "b").1 = emptyDB := by
  have h := claim5_amended constTrue (fun _ => none) 0 emptyDB (some "x") "b"
  exact ⟨h.1, h.2 (by decide)⟩

/-! ### Claim C6 — webhook order resolution -/

/-- The order the fallback would find for the C6 counterexample. -/
def c6order : Order :=
  ⟨1, 5, "PR000001", 100, 0, 100, "online", .pending, .placed, none, c1addr, none, 0, 0⟩

/-- A stored payment row carrying the gateway order id `rzp_9`. -/
def c6pay : Payment := ⟨1, 1, none, some (.str "rzp_9"), none, 100, "razorpay", .pending, 0, 0⟩

/-- Store with the order and its pre-created payment row. -/
def c6db : DB := ⟨[], [], [c6order], [], [], [], [c6pay], 2, 1, 2⟩

/-- A captured event whose note names the nonexistent order 999 but whose
gateway order id matches the stored payment row of order 1. -/
def c6ev : JValue := JValue.objL
  [("event", .str "payment.captured"),
   ("payload", JValue.objL
     [("payment", JValue.objL
       [("entity", JValue.objL
         [("id", .str "pay_9"), ("order_id", .str "rzp_9"),
          ("notes", JValue.objL [("internal_order_id", .str "999")])])])])]

/-- **C6, counterexample.**  The claim says the handler "falls back to
matching the event's gateway order id against a previously stored Payment
record whenever the note does not resolve an order".  Here the note
(`999`) resolves no order while the fallback would resolve order 1 via
the stored payment row — yet the handler acknowledges without resolving:
the fallback runs only in the `else` branch, i.e. when no truthy note is
present at all. -/
theorem claim6_counterexample :
    getOrderI c6db 999 = none
    ∧ c6db.payments.find? (fun p => p.razorpay_order_id == some (.str "rzp_9")) = some c6pay
    ∧ c6db.orders.find? (fun o => o.id == c6pay.order_id) = some c6order
    ∧ paymentWebhook constTrue (parseTo c6ev) 9 c6db (some "s") "b" = (c6db, .ok ())
    ∧ c6db.orders.map (fun o => o.payment_status) = [.pending] := by decide

/-- **C6 (amended).**  For every verified captured event: a truthy
internal-order-id note is used exclusively — if it resolves an order the
write targets that order (paired with the order's first stored payment
row), and if it resolves none the event is acknowledged without mutation
even when a fallback match exists; the gateway-order-id fallback is
consulted only when no truthy note is present; and whenever resolution
yields no order the event is acknowledged without error or mutation. -/
theorem claim6_amended (verify : String → String → Bool) (parse : String → Option JValue)
    (now : Nat) (db : DB) (sig body : String) (ev entity pid : JValue)
    (hs : sig ≠ "") (hv : verify body sig = true) (hp : parse body = some ev)
    (hx : extractEntity ev = .ok (some (entity, pid))) :
    (∀ v oid, extractNote entity = .ok (some v) → v.truthy = true →
      pyInt v = .ok oid → getOrderI db oid = none →
      paymentWebhook verify parse now db (some sig) body = (db, .ok ()))
    ∧ (∀ v oid o rzp sigv, extractNote entity = .ok (some v) → v.truthy = true →
        pyInt v = .ok oid → getOrderI db oid = some o →
        entity.getOpt "order_id" = .ok rzp → entity.getOpt "signature" = .ok sigv →
        paymentWebhook verify parse now db (some sig) body
          = (applyCapture now db pid rzp sigv o
              (db.payments.find? (fun p => p.order_id == o.id)), .ok ()))
    ∧ (∀ note v rec o rzp sigv, extractNote entity = .ok note → jOptTruthy note = false →
        entity.getOpt "order_id" = .ok (some v) → v.truthy = true →
        db.payments.find? (fun p => p.razorpay_order_id == some v) = some rec →
        db.orders.find? (fun o => o.id == rec.order_id) = some o →
        entity.getOpt "order_id" = .ok rzp → entity.getOpt "signature" = .ok sigv →
        paymentWebhook verify parse now db (some sig) body
          = (applyCapture now db pid rzp sigv o (some rec), .ok ()))
    ∧ (resolveTarget db entity = .ok none →
        paymentWebhook verify parse now db (some sig) body = (db, .ok ())) := by
  obtain ⟨hack, happly⟩ :=
    paymentWebhook_resolved verify parse now db sig body ev entity pid hs hv hp hx
  refine ⟨?_, ?_, ?_, hack⟩
  · intro v oid hn ht hi hmiss
    exact hack (resolveTarget_note_miss hn ht hi hmiss)
  · intro v oid o rzp sigv hn ht hi hhit hro hsg
    exact happly o _ rzp sigv (resolveTarget_note_hit hn ht hi hhit) hro hsg
  · intro note v rec o rzp sigv hn ht hro htv hrec hord hro' hsg
    exact happly o (some rec) rzp sigv
      (resolveTarget_fallback_hit hn ht hro htv hrec hord) hro' hsg

/-- Store for the C6 witness: order 1, no payment rows. -/
def c6wdb : DB := ⟨[], [], [c6order], [], [], [], [], 2, 1, 1⟩

/-- The entity of the C6 witness event (note `1` resolving order 1). -/
def c6went : JValue := JValue.objL
  [("id", .str "pay_1"), ("order_id", .str "rzp_1"),
   ("notes", JValue.objL [("internal_order_id", .str "1")])]

/-- The C6 witness event. -/
def c6wev : JValue := JValue.objL
  [("event", .str "payment.captured"),
   ("payload", JValue.objL [("payment", JValue.objL [("entity", c6went)])])]

/-- **C6, witness.**  A truthy note `1` resolves order 1 and the handler
applies the reconciliation write to it (payment_status becomes paid). -/
theorem claim6_witness :
    extractEntity c6wev = .ok (some (c6went, .str "pay_1"))
    ∧ paymentWebhook constTrue (parseTo c6wev) 9 c6wdb (some "s") "b"
      = (applyCapture 9 c6wdb (.str "pay_1") (some (.str "rzp_1")) none c6order none, .ok ())
    ∧ (applyCapture 9 c6wdb (.str "pay_1") (some (.str "rzp_1")) none c6order none).orders.map
        (fun o => o.payment_status) = [.paid] := by
  have hx : extractEntity c6wev = .ok (some (c6went, .str "pay_1")) := by decide
  have h := (claim6_amended constTrue (parseTo c6wev) 9 c6wdb "s" "b" c6wev c6went
    (.str "pay_1") (by decide) (by decide) rfl hx).2.1
  have happ := h (.str "1") 1 c6order (some (.str "rzp_1")) none (by decide) (by decide)
    (by decide) (by decide) (by decide) (by decide)
  have hfind : c6wdb.payments.find? (fun p => p.order_id == c6order.id) = none := by decide
  rw [hfind] at happ
  exact ⟨hx, happ, by decide⟩

/-! ### Generic list lemmas for the idempotence argument -/

/-- `find?` commutes with a row update that does not change whether a row
matches. -/
theorem find?_map_congr {α : Type _} (g : α → α) (p : α → Bool) :
    ∀ l : List α, (∀ x ∈ l, p (g x) = p x) →
      (l.map g).find? p = (l.find? p).map g := by
  intro l
  induction l with
  | nil => intro _; rfl
  | cons a t ih =>
    intro h
    simp only [List.map_cons, List.find?_cons]
    rw [h a (List.mem_cons_self a t)]
    cases hpa : p a with
    | true => rfl
    | false => exact ih (fun x hx => h x (List.mem_cons_of_mem a hx))

/-- Row counts of a predicate survive a match-preserving row update. -/
theorem filter_length_map_congr {α : Type _} (g : α → α) (p : α → Bool) :
    ∀ l : List α, (∀ x ∈ l, p (g x) = p x) →
      ((l.map g).filter p).length = (l.filter p).length := by
  intro l
  induction l with
  | nil => intro _; rfl
  | cons a t ih =>
    intro h
    simp only [List.map_cons, List.filter_cons]
    rw [h a (List.mem_cons_self a t)]
    cases hpa : p a with
    | true => simp [ih (fun x hx => h x (List.mem_cons_of_mem a hx))]
    | false => exact ih (fun x hx => h x (List.mem_cons_of_mem a hx))

/-- In a table with distinct keys, looking a member's key up returns that
member. -/
theorem find?_key_of_mem {α β : Type _} [DecidableEq β] (f : α → β) :
    ∀ {l : List α}, (l.map f).Nodup → ∀ {a}, a ∈ l →
      l.find? (fun x => f x == f a) = some a := by
  intro l
  induction l with
  | nil => intro _ a ha; simp at ha
  | cons b t ih =>
    intro hnd a ha
    simp only [List.map_cons, List.nodup_cons] at hnd
    rcases List.mem_cons.mp ha with rfl | hat
    · simp [List.find?_cons]
    · have hfb : (f b == f a) = false := by
        by_cases hfe : f b = f a
        · exact absurd (hfe ▸ List.mem_map_of_mem f hat) hnd.1
        · simp [hfe]
      simp only [List.find?_cons, hfb]
      exact ih hnd.2 hat

/-- A found row witnesses at least one filtered row. -/
theorem one_le_filter_length {α : Type _} {p : α → Bool} {l : List α} {a : α}
    (h : l.find? p = some a) : 1 ≤ (l.filter p).length := by
  have hm : a ∈ l.filter p :=
    List.mem_filter.mpr ⟨List.mem_of_find?_eq_some h, List.find?_some h⟩
  exact List.length_pos.mpr (List.ne_nil_of_mem hm)

/-- No match means no filtered rows. -/
theorem filter_nil_of_find?_none {α : Type _} {p : α → Bool} {l : List α}
    (h : l.find? p = none) : l.filter p = [] :=
  List.filter_eq_nil_iff.mpr (fun a ha => by simpa using List.find?_eq_none.mp h a ha)

/-- Inversion of the order-resolution step: either the truthy note found
the order (with the order's first payment row attached), or there was no
truthy note and the stored-payment fallback found it. -/
theorem resolveTarget_inv {db : DB} {entity : JValue} {o : Order} {rec? : Option Payment}
    (h : resolveTarget db entity = .ok (some (o, rec?))) :
    (∃ v oid, extractNote entity = .ok (some v) ∧ v.truthy = true ∧
       pyInt v = .ok oid ∧ getOrderI db oid = some o ∧
       rec? = db.payments.find? (fun p => p.order_id == o.id))
    ∨ (∃ note v rec, extractNote entity = .ok note ∧ jOptTruthy note = false ∧
       entity.getOpt "order_id" = .ok (some v) ∧ v.truthy = true ∧
       db.payments.find? (fun p => p.razorpay_order_id == some v) = some rec ∧
       db.orders.find? (fun x => x.id == rec.order_id) = some o ∧ rec? = some rec) := by
  unfold resolveTarget at h
  cases hn : extractNote entity with
  | error e => rw [hn] at h; simp at h
  | ok note =>
    rw [hn] at h
    dsimp only at h
    by_cases ht : jOptTruthy note = true
    · rw [if_pos ht] at h
      cases note with
      | none => simp [jOptTruthy] at ht
      | some v =>
        simp only [Option.getD_some] at h
        cases hi : pyInt v with
        | error e => rw [hi] at h; simp at h
        | ok oid =>
          rw [hi] at h
          dsimp only at h
          cases hg : getOrderI db oid with
          | none => rw [hg] at h; simp at h
          | some o' =>
            rw [hg] at h
            simp at h
            refine Or.inl ⟨v, oid, rfl, by simpa [jOptTruthy] using ht, hi, ?_, ?_⟩
            · rw [hg, h.1]
            · rw [← h.1, h.2]
    · rw [if_neg ht] at h
      rw [Bool.not_eq_true] at ht
      unfold resolveFallback at h
      cases hro : entity.getOpt "order_id" with
      | error e => rw [hro] at h; simp at h
      | ok rzp =>
        rw [hro] at h
        dsimp only at h
        cases rzp with
        | none => simp at h
        | some v =>
          dsimp only at h
          by_cases htv : v.truthy = true
          · rw [if_pos htv] at h
            cases hrec : db.payments.find? (fun p => p.razorpay_order_id == some v) with
            | none => rw [hrec] at h; simp at h
            | some rec =>
              rw [hrec] at h
              dsimp only at h
              cases hord : db.orders.find? (fun x => x.id == rec.order_id) with
              | none => rw [hord] at h; simp at h
              | some o' =>
                rw [hord] at h
                simp at h
                refine Or.inr ⟨note, v, rec, rfl, ht, rfl, htv, hrec, ?_, h.2.symm⟩
                rw [hord, h.1]
          · rw [if_neg htv] at h
            simp at h

/-! ### Row-update algebra -/

/-- `markPaid` does not change a row's primary key. -/
theorem markPaid_id (oid : Nat) (x : Order) : (markPaid oid x).id = x.id := by
  unfold markPaid
  by_cases h : (x.id == oid) = true <;> simp [h]

/-- Marking an order paid twice is marking it once. -/
theorem markPaid_idem (oid : Nat) (x : Order) :
    markPaid oid (markPaid oid x) = markPaid oid x := by
  unfold markPaid
  by_cases h : (x.id == oid) = true <;> simp [h]

/-- `markPaid` on the row with the key. -/
theorem markPaid_hit (x : Order) : markPaid x.id x = { x with payment_status := .paid } := by
  unfold markPaid
  simp

/-- `updatePaymentRow` does not change a row's primary key. -/
theorem updatePaymentRow_id (now : Nat) (pid : JValue) (rzp sigv : Option JValue)
    (recId : Nat) (p : Payment) : (updatePaymentRow now pid rzp sigv recId p).id = p.id := by
  unfold updatePaymentRow
  by_cases h : (p.id == recId) = true <;> simp [h]

/-- `updatePaymentRow` does not change a row's `order_id`. -/
theorem updatePaymentRow_order_id (now : Nat) (pid : JValue) (rzp sigv : Option JValue)
    (recId : Nat) (p : Payment) :
    (updatePaymentRow now pid rzp sigv recId p).order_id = p.order_id := by
  unfold updatePaymentRow
  by_cases h : (p.id == recId) = true <;> simp [h]

/-- Applying the same payment-row update twice is applying it once. -/
theorem updatePaymentRow_idem (now : Nat) (pid : JValue) (rzp sigv : Option JValue)
    (recId : Nat) (p : Payment) :
    updatePaymentRow now pid rzp sigv recId (updatePaymentRow now pid rzp sigv recId p)
      = updatePaymentRow now pid rzp sigv recId p := by
  unfold updatePaymentRow
  by_cases h : (p.id == recId) = true <;> simp [h]

/-- `updatePaymentRow` on the row with the key. -/
theorem updatePaymentRow_hit (now : Nat) (pid : JValue) (rzp sigv : Option JValue)
    (p : Payment) :
    updatePaymentRow now pid rzp sigv p.id p
      = { p with payment_id := some pid, razorpay_order_id := rzp,
                 razorpay_signature := sigv, payment_status := .success,
                 updated_at := now } := by
  unfold updatePaymentRow
  simp

/-- The update form of the reconciliation write. -/
theorem applyCapture_some (now : Nat) (db : DB) (pid : JValue) (rzp sigv : Option JValue)
    (o : Order) (rec : Payment) :
    applyCapture now db pid rzp sigv o (some rec)
      = { db with orders := db.orders.map (markPaid o.id),
                  payments := db.payments.map (updatePaymentRow now pid rzp sigv rec.id) } := rfl

/-- The insert form of the reconciliation write. -/
theorem applyCapture_none (now : Nat) (db : DB) (pid : JValue) (rzp sigv : Option JValue)
    (o : Order) :
    applyCapture now db pid rzp sigv o none
      = { db with orders := db.orders.map (markPaid o.id),
                  payments := db.payments ++ [freshPaymentRow now db pid rzp sigv o],
                  nextPaymentId := db.nextPaymentId + 1 } := rfl

/-! ### Claim C4 — webhook idempotence -/

/-- **C4.**  Delivering the identical verified `payment.captured` event
twice leaves the database exactly as one delivery does: the first delivery
acknowledges with a committed state `db₁`, the second delivery on `db₁`
acknowledges and returns `db₁` unchanged, and after either delivery the
resolved order has exactly one `Payment` row and `payment_status = paid`.
The primary-key hypotheses state invariants every reachable store
satisfies (distinct autoincrement keys below the counter, at most one
payment row per order — both `create-order` and the webhook create a row
only when none exists). -/
theorem claim4_webhook_idempotent (verify : String → String → Bool)
    (parse : String → Option JValue) (now : Nat) (db : DB) (sig body : String)
    (ev entity pid : JValue) (o : Order) (rec? : Option Payment)
    (hs : sig ≠ "") (hv : verify body sig = true) (hp : parse body = some ev)
    (hx : extractEntity ev = .ok (some (entity, pid)))
    (hr : resolveTarget db entity = .ok (some (o, rec?)))
    (hpids : (db.payments.map (fun p => p.id)).Nodup)
    (hfresh : ∀ p ∈ db.payments, p.id < db.nextPaymentId)
    (hoids : (db.orders.map (fun x => x.id)).Nodup)
    (hcount : (db.payments.filter (fun p => p.order_id == o.id)).length ≤ 1) :
    ∃ db₁, paymentWebhook verify parse now db (some sig) body = (db₁, .ok ())
      ∧ paymentWebhook verify parse now db₁ (some sig) body = (db₁, .ok ())
      ∧ (db₁.payments.filter (fun p => p.order_id == o.id)).length = 1
      ∧ (db₁.orders.find? (fun x => x.id == o.id)).map (fun x => x.payment_status)
          = some OrderPaymentStatus.paid := by
  obtain ⟨fs, rfl⟩ := extractEntity_obj hx
  have hro : (JValue.obj fs).getOpt "order_id" = .ok (fs.find "order_id") := rfl
  have hsgn : (JValue.obj fs).getOpt "signature" = .ok (fs.find "signature") := rfl
  have hfirst := (paymentWebhook_resolved verify parse now db sig body ev (.obj fs) pid
    hs hv hp hx).2 o rec? (fs.find "order_id") (fs.find "signature") hr hro hsgn
  rcases resolveTarget_inv hr with ⟨v, oid, hn, htv, hi, hg, hrq⟩
    | ⟨note, v, rec, hn, htF, hroV, htv, hrec, hord, hrq⟩
  · -- resolution via the internal-order-id note
    have homem : o ∈ db.orders := List.mem_of_find?_eq_some hg
    have hfo : db.orders.find? (fun x => x.id == o.id) = some o :=
      find?_key_of_mem (fun x => x.id) hoids homem
    cases hfp : db.payments.find? (fun p => p.order_id == o.id) with
    | some rec =>
      rw [hfp] at hrq
      subst hrq
      rw [applyCapture_some] at hfirst
      refine ⟨_, hfirst, ?_, ?_, ?_⟩
      · -- second delivery is a no-op
        have hg₁ : getOrderI { db with
              orders := db.orders.map (markPaid o.id),
              payments := db.payments.map
                (updatePaymentRow now pid (fs.find "order_id") (fs.find "signature") rec.id) }
            oid = some (markPaid o.id o) := by
          show (db.orders.map (markPaid o.id)).find? (fun x => (x.id : Int) == oid) = _
          have hg' : db.orders.find? (fun x => (x.id : Int) == oid) = some o := hg
          rw [find?_map_congr _ _ _ (fun x _ => by rw [markPaid_id]), hg']
          rfl
        have hfp₁ : (db.payments.map
              (updatePaymentRow now pid (fs.find "order_id") (fs.find "signature") rec.id)).find?
              (fun p => p.order_id == o.id)
            = some (updatePaymentRow now pid (fs.find "order_id") (fs.find "signature") rec.id rec) := by
          rw [find?_map_congr _ _ _ (fun p _ => by rw [updatePaymentRow_order_id]), hfp]
          rfl
        have hr₁ := resolveTarget_note_hit hn htv hi hg₁
        simp only [markPaid_id] at hr₁
        rw [show ({ db with
              orders := db.orders.map (markPaid o.id),
              payments := db.payments.map
                (updatePaymentRow now pid (fs.find "order_id") (fs.find "signature") rec.id) } : DB).payments.find?
              (fun p => p.order_id == o.id)
            = some (updatePaymentRow now pid (fs.find "order_id") (fs.find "signature") rec.id rec)
          from hfp₁] at hr₁
        have h2 := (paymentWebhook_resolved verify parse now _ sig body ev (.obj fs) pid
          hs hv hp hx).2 (markPaid o.id o)
          (some (updatePaymentRow now pid (fs.find "order_id") (fs.find "signature") rec.id rec))
          (fs.find "order_id") (fs.find "signature") hr₁ hro hsgn
        rw [applyCapture_some] at h2
        have horders2 : (db.orders.map (markPaid o.id)).map (markPaid (markPaid o.id o).id)
            = db.orders.map (markPaid o.id) := by
          rw [markPaid_id, List.map_map]
          exact List.map_congr_left (fun x _ => markPaid_idem o.id x)
        have hpay2 : (db.payments.map
              (updatePaymentRow now pid (fs.find "order_id") (fs.find "signature") rec.id)).map
              (updatePaymentRow now pid (fs.find "order_id") (fs.find "signature")
                (updatePaymentRow now pid (fs.find "order_id") (fs.find "signature") rec.id rec).id)
            = db.payments.map
              (updatePaymentRow now pid (fs.find "order_id") (fs.find "signature") rec.id) := by
          rw [updatePaymentRow_id, List.map_map]
          exact List.map_congr_left (fun p _ =>
            updatePaymentRow_idem now pid (fs.find "order_id") (fs.find "signature") rec.id p)
        rw [horders2, hpay2] at h2
        exact h2
      · show ((db.payments.map _).filter _).length = 1
        rw [filter_length_map_congr _ _ _ (fun p _ => by rw [updatePaymentRow_order_id])]
        have h1 := one_le_filter_length hfp
        omega
      · show ((db.orders.map _).find? _).map _ = _
        rw [find?_map_congr _ _ _ (fun x _ => by rw [markPaid_id]), hfo]
        simp [markPaid]
    | none =>
      rw [hfp] at hrq
      subst hrq
      rw [applyCapture_none] at hfirst
      refine ⟨_, hfirst, ?_, ?_, ?_⟩
      · have hg₁ : getOrderI { db with
              orders := db.orders.map (markPaid o.id),
              payments := db.payments ++
                [freshPaymentRow now db pid (fs.find "order_id") (fs.find "signature") o],
              nextPaymentId := db.nextPaymentId + 1 } oid = some (markPaid o.id o) := by
          show (db.orders.map (markPaid o.id)).find? (fun x => (x.id : Int) == oid) = _
          have hg' : db.orders.find? (fun x => (x.id : Int) == oid) = some o := hg
          rw [find?_map_congr _ _ _ (fun x _ => by rw [markPaid_id]), hg']
          rfl
        have hfp₁ : (db.payments ++
              [freshPaymentRow now db pid (fs.find "order_id") (fs.find "signature") o]).find?
              (fun p => p.order_id == o.id)
            = some (freshPaymentRow now db pid (fs.find "order_id") (fs.find "signature") o) := by
          rw [List.find?_append, hfp]
          simp [List.find?_cons, freshPaymentRow]
        have hr₁ := resolveTarget_note_hit hn htv hi hg₁
        simp only [markPaid_id] at hr₁
        rw [show ({ db with
              orders := db.orders.map (markPaid o.id),
              payments := db.payments ++
                [freshPaymentRow now db pid (fs.find "order_id") (fs.find "signature") o],
              nextPaymentId := db.nextPaymentId + 1 } : DB).payments.find?
              (fun p => p.order_id == o.id)
            = some (freshPaymentRow now db pid (fs.find "order_id") (fs.find "signature") o)
          from hfp₁] at hr₁
        have h2 := (paymentWebhook_resolved verify parse now _ sig body ev (.obj fs) pid
          hs hv hp hx).2 (markPaid o.id o)
          (some (freshPaymentRow now db pid (fs.find "order_id") (fs.find "signature") o))
          (fs.find "order_id") (fs.find "signature") hr₁ hro hsgn
        rw [applyCapture_some] at h2
        have horders2 : (db.orders.map (markPaid o.id)).map (markPaid (markPaid o.id o).id)
            = db.orders.map (markPaid o.id) := by
          rw [markPaid_id, List.map_map]
          exact List.map_congr_left (fun x _ => markPaid_idem o.id x)
        have hpay2 : (db.payments ++
              [freshPaymentRow now db pid (fs.find "order_id") (fs.find "signature") o]).map
              (updatePaymentRow now pid (fs.find "order_id") (fs.find "signature")
                (freshPaymentRow now db pid (fs.find "order_id") (fs.find "signature") o).id)
            = db.payments ++
              [freshPaymentRow now db pid (fs.find "order_id") (fs.find "signature") o] := by
          have hpt : ∀ p ∈ db.payments ++
              [freshPaymentRow now db pid (fs.find "order_id") (fs.find "signature") o],
              updatePaymentRow now pid (fs.find "order_id") (fs.find "signature")
                (freshPaymentRow now db pid (fs.find "order_id") (fs.find "signature") o).id p
              = p := by
            intro p hp
            rcases List.mem_append.mp hp with hp | hp
            · have hlt := hfresh p hp
              have hne : (p.id ==
                  (freshPaymentRow now db pid (fs.find "order_id") (fs.find "signature") o).id)
                  = false := by
                simp [freshPaymentRow]
                omega
              unfold updatePaymentRow
              simp [hne]
            · rw [List.mem_singleton] at hp
              subst hp
              unfold updatePaymentRow
              split
              · rfl
              · rfl
          exact (List.map_congr_left hpt).trans (List.map_id _)
        rw [horders2, hpay2] at h2
        exact h2
      · show ((db.payments ++ _).filter _).length = 1
        rw [List.filter_append, filter_nil_of_find?_none hfp]
        simp [freshPaymentRow]
      · show ((db.orders.map _).find? _).map _ = _
        rw [find?_map_congr _ _ _ (fun x _ => by rw [markPaid_id]), hfo]
        simp [markPaid]
  · -- resolution via the gateway-order-id fallback
    subst hrq
    have homem : o ∈ db.orders := List.mem_of_find?_eq_some hord
    have hfo : db.orders.find? (fun x => x.id == o.id) = some o :=
      find?_key_of_mem (fun x => x.id) hoids homem
    have hrecmem : rec ∈ db.payments := List.mem_of_find?_eq_some hrec
    have hrzp := List.find?_some hrec
    have hoidrec : o.id = rec.order_id := by simpa using List.find?_some hord
    have hfsv : fs.find "order_id" = some v := by
      have h' := hro.symm.trans hroV
      simpa using h'
    have hpredO : (rec.order_id == o.id) = true := by simp [hoidrec]
    rw [applyCapture_some] at hfirst
    refine ⟨_, hfirst, ?_, ?_, ?_⟩
    · have hpresR : ∀ p ∈ db.payments,
          ((updatePaymentRow now pid (fs.find "order_id") (fs.find "signature") rec.id p).razorpay_order_id
              == some v)
            = (p.razorpay_order_id == some v) := by
        intro p hp
        by_cases hpi : (p.id == rec.id) = true
        · have hpe : p = rec :=
            List.inj_on_of_nodup_map hpids hp hrecmem (by simpa using hpi)
          subst hpe
          unfold updatePaymentRow
          simp [hfsv, hrzp]
        · unfold updatePaymentRow
          simp [hpi]
      have hfp₁ : (db.payments.map
            (updatePaymentRow now pid (fs.find "order_id") (fs.find "signature") rec.id)).find?
            (fun p => p.razorpay_order_id == some v)
          = some (updatePaymentRow now pid (fs.find "order_id") (fs.find "signature") rec.id rec) := by
        rw [find?_map_congr _ _ _ hpresR, hrec]
        rfl
      have hord₁ : (db.orders.map (markPaid o.id)).find?
            (fun x => x.id ==
              (updatePaymentRow now pid (fs.find "order_id") (fs.find "signature") rec.id rec).order_id)
          = some (markPaid o.id o) := by
        rw [updatePaymentRow_order_id]
        rw [find?_map_congr _ _ _ (fun x _ => by rw [markPaid_id]), hord]
        rfl
      have hr₁ : resolveTarget
          { db with
            orders := db.orders.map (markPaid o.id),
            payments := db.payments.map
              (updatePaymentRow now pid (fs.find "order_id") (fs.find "signature") rec.id) }
          (.obj fs)
          = .ok (some (markPaid o.id o,
              some (updatePaymentRow now pid (fs.find "order_id") (fs.find "signature") rec.id rec))) :=
        resolveTarget_fallback_hit hn htF hroV htv hfp₁ hord₁
      have h2 := (paymentWebhook_resolved verify parse now _ sig body ev (.obj fs) pid
        hs hv hp hx).2 (markPaid o.id o)
        (some (updatePaymentRow now pid (fs.find "order_id") (fs.find "signature") rec.id rec))
        (fs.find "order_id") (fs.find "signature") hr₁ hro hsgn
      rw [applyCapture_some] at h2
      have horders2 : (db.orders.map (markPaid o.id)).map (markPaid (markPaid o.id o).id)
          = db.orders.map (markPaid o.id) := by
        rw [markPaid_id, List.map_map]
        exact List.map_congr_left (fun x _ => markPaid_idem o.id x)
      have hpay2 : (db.payments.map
            (updatePaymentRow now pid (fs.find "order_id") (fs.find "signature") rec.id)).map
            (updatePaymentRow now pid (fs.find "order_id") (fs.find "signature")
              (updatePaymentRow now pid (fs.find "order_id") (fs.find "signature") rec.id rec).id)
          = db.payments.map
            (updatePaymentRow now pid (fs.find "order_id") (fs.find "signature") rec.id) := by
        rw [updatePaymentRow_id, List.map_map]
        exact List.map_congr_left (fun p _ =>
          updatePaymentRow_idem now pid (fs.find "order_id") (fs.find "signature") rec.id p)
      rw [horders2, hpay2] at h2
      exact h2
    · show ((db.payments.map _).filter _).length = 1
      rw [filter_length_map_congr _ _ _ (fun p _ => by rw [updatePaymentRow_order_id])]
      have hmf : rec ∈ db.payments.filter (fun p => p.order_id == o.id) :=
        List.mem_filter.mpr ⟨hrecmem, hpredO⟩
      have h1 : 0 < (db.payments.filter (fun p => p.order_id == o.id)).length :=
        List.length_pos.mpr (List.ne_nil_of_mem hmf)
      omega
    · show ((db.orders.map _).find? _).map _ = _
      rw [find?_map_congr _ _ _ (fun x _ => by rw [markPaid_id]), hfo]
      simp [markPaid]

/-- **C4, witness.**  The captured event with note `1` delivered twice to
the store holding order 1 and no payment rows: both deliveries acknowledge,
the second leaves the state of the first unchanged, one payment row
exists and the order is paid. -/
theorem claim4_witness :
    resolveTarget c6wdb c6went = .ok (some (c6order, none))
    ∧ ∃ db₁, paymentWebhook constTrue (parseTo c6wev) 9 c6wdb (some "s") "b" = (db₁, .ok ())
      ∧ paymentWebhook constTrue (parseTo c6wev) 9 db₁ (some "s") "b" = (db₁, .ok ())
      ∧ (db₁.payments.filter (fun p => p.order_id == c6order.id)).length = 1
      ∧ (db₁.orders.find? (fun x => x.id == c6order.id)).map (fun x => x.payment_status)
          = some OrderPaymentStatus.paid := by
  refine ⟨by decide, ?_⟩
  exact claim4_webhook_idempotent constTrue (parseTo c6wev) 9 c6wdb "s" "b" c6wev c6went
    (.str "pay_1") c6order none (by decide) (by decide) rfl (by decide) (by decide)
    (by decide) (by decide) (by decide) (by decide)

end Prashayan
